import Mathlib

/-!
Verification development for the fullstack operations module
(DesignToFrontend, DesignToBackend, FrontendBackendSync).

The Python code operates on loosely-structured dictionaries; we embed its
values as the type Val (Python None, strings, lists, dicts with string
keys).  Fallible dictionary operations (attribute access, `d[k]` indexing,
iteration) return Except String, with the error string naming the Python
exception that the corresponding operation would raise, so that the
exception behaviour of the code is part of the model.
-/

inductive Val : Type where
  | none : Val
  | str : String → Val
  | list : List Val → Val
  | dict : List (String × Val) → Val

mutual

/-- Structural equality on values, mirroring Python `==` on the fragment
the code compares (None and strings in practice). -/
def Val.beq : Val → Val → Bool
  | Val.none, Val.none => true
  | Val.str a, Val.str b => a == b
  | Val.list xs, Val.list ys => Val.beqList xs ys
  | Val.dict xs, Val.dict ys => Val.beqKVs xs ys
  | _, _ => false

/-- Elementwise equality of value lists. -/
def Val.beqList : List Val → List Val → Bool
  | [], [] => true
  | x :: xs, y :: ys => Val.beq x y && Val.beqList xs ys
  | _, _ => false

/-- Entrywise equality of key-value lists. -/
def Val.beqKVs : List (String × Val) → List (String × Val) → Bool
  | [], [] => true
  | (k, v) :: xs, (k2, v2) :: ys => k == k2 && Val.beq v v2 && Val.beqKVs xs ys
  | _, _ => false

end

instance : BEq Val := ⟨Val.beq⟩

/-- First-match association-list lookup: the model of a Python dict. -/
def lookupKey : List (String × Val) → String → Option Val
  | [], _ => Option.none
  | (k, v) :: rest, key =>
      if k == key then Option.some v else lookupKey rest key

/-- Python `d.get(key, default)`.  On a non-dict value the attribute
access raises AttributeError. -/
def pyGet : Val → String → Val → Except String Val
  | Val.dict kvs, k, d => Except.ok ((lookupKey kvs k).getD d)
  | _, _, _ => Except.error "AttributeError: get"

/-- Python `d[key]`: KeyError on a dict missing the key, TypeError on
non-dict values. -/
def pyIndex : Val → String → Except String Val
  | Val.dict kvs, k =>
      match lookupKey kvs k with
      | Option.some v => Except.ok v
      | Option.none => Except.error ("KeyError: " ++ k)
  | _, _ => Except.error "TypeError: not subscriptable"

/-- Python iteration `for x in v`: lists yield elements, dicts yield
keys, strings yield one-character strings, None raises TypeError. -/
def pyIter : Val → Except String (List Val)
  | Val.list xs => Except.ok xs
  | Val.dict kvs => Except.ok (kvs.map (fun kv => Val.str kv.1))
  | Val.str s => Except.ok (s.data.map (fun c => Val.str (String.mk [c])))
  | Val.none => Except.error "TypeError: not iterable"

/-- Substring test on character lists (Python `needle in haystack` for
strings). -/
def charsSub (needle : List Char) : List Char → Bool
  | [] => needle.isEmpty
  | c :: rest => needle.isPrefixOf (c :: rest) || charsSub needle rest

/-- Python `key in v`: key membership for dicts, element membership for
lists, substring test for strings, TypeError otherwise. -/
def pyContains : Val → String → Except String Bool
  | Val.dict kvs, k => Except.ok (lookupKey kvs k).isSome
  | Val.list xs, k => Except.ok (xs.contains (Val.str k))
  | Val.str s, k => Except.ok (charsSub k.data s.data)
  | Val.none, _ => Except.error "TypeError: argument of in not iterable"

/-- Membership of a value in a list of values under Val.beq. -/
def listContains (xs : List Val) (x : Val) : Bool :=
  xs.any (fun y => Val.beq y x)

/-- One `if key in design: tasks.extend(build(design[key]))` block of the
extractors: yields the built tasks when the key is present, the empty list
otherwise. -/
def opt_tasks_part (design : Val) (key : String)
    (build : List Val → Except String (List Val)) : Except String (List Val) :=
  match pyContains design key with
  | Except.error e => Except.error e
  | Except.ok has =>
    if has then
      match pyIndex design key with
      | Except.error e => Except.error e
      | Except.ok es =>
        match pyIter es with
        | Except.error e => Except.error e
        | Except.ok xs => build xs
    else Except.ok []

namespace DesignToFrontend

/-- Body of the `_create_component_tasks` list comprehension for a single
`ui_components` entry. -/
def mk_component_task (c : Val) : Except String Val :=
  match pyGet c "name" Val.none with
  | Except.error e => Except.error e
  | Except.ok n =>
  match pyGet c "requirements" (Val.list []) with
  | Except.error e => Except.error e
  | Except.ok r =>
  match pyGet c "dependencies" (Val.list []) with
  | Except.error e => Except.error e
  | Except.ok d =>
      Except.ok (Val.dict [("type", Val.str "component"), ("name", n),
        ("requirements", r), ("dependencies", d)])

/-- Embeds `_create_component_tasks`. -/
def create_component_tasks : List Val → Except String (List Val)
  | [] => Except.ok []
  | c :: cs =>
    match mk_component_task c with
    | Except.error e => Except.error e
    | Except.ok t =>
      match create_component_tasks cs with
      | Except.error e => Except.error e
      | Except.ok ts => Except.ok (t :: ts)

/-- Body of the `_create_service_tasks` list comprehension for a single
`api_endpoints` entry. -/
def mk_service_task (e : Val) : Except String Val :=
  match pyGet e "path" Val.none with
  | Except.error err => Except.error err
  | Except.ok p =>
  match pyGet e "method" Val.none with
  | Except.error err => Except.error err
  | Except.ok m =>
  match pyGet e "data_model" Val.none with
  | Except.error err => Except.error err
  | Except.ok dm =>
      Except.ok (Val.dict [("type", Val.str "service"), ("endpoint", p),
        ("method", m), ("data_model", dm)])

/-- Embeds `_create_service_tasks`. -/
def create_service_tasks : List Val → Except String (List Val)
  | [] => Except.ok []
  | e :: es =>
    match mk_service_task e with
    | Except.error err => Except.error err
    | Except.ok t =>
      match create_service_tasks es with
      | Except.error err => Except.error err
      | Except.ok ts => Except.ok (t :: ts)

/-- Embeds `_extract_frontend_tasks`. -/
def extract_frontend_tasks (design : Val) : Except String (List Val) :=
  match opt_tasks_part design "ui_components" create_component_tasks with
  | Except.error e => Except.error e
  | Except.ok t1 =>
    match opt_tasks_part design "api_endpoints" create_service_tasks with
    | Except.error e => Except.error e
    | Except.ok t2 => Except.ok (t1 ++ t2)

/-- Embeds `DesignToFrontend.arun`. -/
def arun (inputs : Val) : Except String Val :=
  match pyGet inputs "design" (Val.dict []) with
  | Except.error e => Except.error e
  | Except.ok design =>
    match extract_frontend_tasks design with
    | Except.error e => Except.error e
    | Except.ok tasks =>
      match pyGet design "frontend_dependencies" (Val.list []) with
      | Except.error e => Except.error e
      | Except.ok deps =>
          Except.ok (Val.dict [("frontend_tasks", Val.list tasks),
            ("tech_stack", Val.str "Angular"), ("dependencies", deps)])

end DesignToFrontend

namespace DesignToBackend

/-- Body of the `_create_api_tasks` list comprehension for a single
`api_endpoints` entry. -/
def mk_api_task (e : Val) : Except String Val :=
  match pyGet e "path" Val.none with
  | Except.error err => Except.error err
  | Except.ok p =>
  match pyGet e "method" Val.none with
  | Except.error err => Except.error err
  | Except.ok m =>
  match pyGet e "request_model" Val.none with
  | Except.error err => Except.error err
  | Except.ok rq =>
  match pyGet e "response_model" Val.none with
  | Except.error err => Except.error err
  | Except.ok rs =>
  match pyGet e "security" (Val.list []) with
  | Except.error err => Except.error err
  | Except.ok sec =>
      Except.ok (Val.dict [("type", Val.str "controller"), ("endpoint", p),
        ("method", m), ("request_model", rq), ("response_model", rs),
        ("security", sec)])

/-- Embeds `_create_api_tasks`. -/
def create_api_tasks : List Val → Except String (List Val)
  | [] => Except.ok []
  | e :: es =>
    match mk_api_task e with
    | Except.error err => Except.error err
    | Except.ok t =>
      match create_api_tasks es with
      | Except.error err => Except.error err
      | Except.ok ts => Except.ok (t :: ts)

/-- Body of the `_create_model_tasks` list comprehension for a single
`data_models` entry. -/
def mk_model_task (m : Val) : Except String Val :=
  match pyGet m "name" Val.none with
  | Except.error err => Except.error err
  | Except.ok n =>
  match pyGet m "properties" (Val.list []) with
  | Except.error err => Except.error err
  | Except.ok ps =>
  match pyGet m "validations" (Val.list []) with
  | Except.error err => Except.error err
  | Except.ok vs =>
  match pyGet m "relationships" (Val.list []) with
  | Except.error err => Except.error err
  | Except.ok rs =>
      Except.ok (Val.dict [("type", Val.str "model"), ("name", n),
        ("properties", ps), ("validations", vs), ("relationships", rs)])

/-- Embeds `_create_model_tasks`. -/
def create_model_tasks : List Val → Except String (List Val)
  | [] => Except.ok []
  | m :: ms =>
    match mk_model_task m with
    | Except.error err => Except.error err
    | Except.ok t =>
      match create_model_tasks ms with
      | Except.error err => Except.error err
      | Except.ok ts => Except.ok (t :: ts)

/-- Body of the backend `_create_service_tasks` list comprehension for a
single `services` entry. -/
def mk_backend_service_task (s : Val) : Except String Val :=
  match pyGet s "name" Val.none with
  | Except.error err => Except.error err
  | Except.ok n =>
  match pyGet s "operations" (Val.list []) with
  | Except.error err => Except.error err
  | Except.ok ops =>
  match pyGet s "dependencies" (Val.list []) with
  | Except.error err => Except.error err
  | Except.ok ds =>
  match pyGet s "data_access" (Val.dict []) with
  | Except.error err => Except.error err
  | Except.ok da =>
      Except.ok (Val.dict [("type", Val.str "service"), ("name", n),
        ("operations", ops), ("dependencies", ds), ("data_access", da)])

/-- Backend `_create_service_tasks`. -/
def create_backend_service_tasks : List Val → Except String (List Val)
  | [] => Except.ok []
  | s :: ss =>
    match mk_backend_service_task s with
    | Except.error err => Except.error err
    | Except.ok t =>
      match create_backend_service_tasks ss with
      | Except.error err => Except.error err
      | Except.ok ts => Except.ok (t :: ts)

/-- Embeds `_extract_backend_tasks`. -/
def extract_backend_tasks (design : Val) : Except String (List Val) :=
  match opt_tasks_part design "api_endpoints" create_api_tasks with
  | Except.error e => Except.error e
  | Except.ok t1 =>
    match opt_tasks_part design "data_models" create_model_tasks with
    | Except.error e => Except.error e
    | Except.ok t2 =>
      match opt_tasks_part design "services" create_backend_service_tasks with
      | Except.error e => Except.error e
      | Except.ok t3 => Except.ok (t1 ++ t2 ++ t3)

/-- Embeds `DesignToBackend.arun`. -/
def arun (inputs : Val) : Except String Val :=
  match pyGet inputs "design" (Val.dict []) with
  | Except.error e => Except.error e
  | Except.ok design =>
    match extract_backend_tasks design with
    | Except.error e => Except.error e
    | Except.ok tasks =>
      match pyGet design "backend_dependencies" (Val.list []) with
      | Except.error e => Except.error e
      | Except.ok deps =>
          Except.ok (Val.dict [("backend_tasks", Val.list tasks),
            ("tech_stack", Val.str ".NET Core"), ("dependencies", deps)])

end DesignToBackend

namespace FrontendBackendSync

/-- Modelled from the spec: the source calls `self._compare_methods`, which is
not defined in the files under review.  Per the spec the helper only computes
a delta of the two sides' method sets and never sets a status; we report the
elements present on exactly one side. -/
def compare_methods (a b : Val) : Except String Val :=
  match pyIter a with
  | Except.error e => Except.error e
  | Except.ok xs =>
    match pyIter b with
    | Except.error e => Except.error e
    | Except.ok ys =>
        Except.ok (Val.dict
          [("frontend_only", Val.list (xs.filter (fun x => !(listContains ys x)))),
           ("backend_only", Val.list (ys.filter (fun y => !(listContains xs y))))])

/-- Modelled from the spec: the source calls `self._compare_properties`, which
is not defined in the files under review.  Per the spec it compares property
sets structurally and reports the diff, embedded in the finding. -/
def compare_properties (a b : Val) : Except String Val :=
  match pyIter a with
  | Except.error e => Except.error e
  | Except.ok xs =>
    match pyIter b with
    | Except.error e => Except.error e
    | Except.ok ys =>
        Except.ok (Val.dict
          [("frontend_only", Val.list (xs.filter (fun x => !(listContains ys x)))),
           ("backend_only", Val.list (ys.filter (fun y => !(listContains xs y))))])

/-- Modelled from the spec: the source calls `self._compare_roles`, which is
not defined in the files under review.  Per the spec it compares the two
sides' role lists as sets and lists the differences, empty when they agree. -/
def compare_roles (a b : Val) : Except String (List Val) :=
  match pyIter a with
  | Except.error e => Except.error e
  | Except.ok xs =>
    match pyIter b with
    | Except.error e => Except.error e
    | Except.ok ys =>
        Except.ok (xs.filter (fun x => !(listContains ys x)) ++
                   ys.filter (fun y => !(listContains xs y)))

/-- First element of a list of dicts whose field `k` equals `target`
(helper for the two spec-modelled matchers). -/
def find_by_key (k : String) (target : Val) : List Val → Except String (Option Val)
  | [] => Except.ok Option.none
  | e :: es =>
    match pyGet e k Val.none with
    | Except.error err => Except.error err
    | Except.ok v =>
        if Val.beq v target then Except.ok (Option.some e)
        else find_by_key k target es

/-- Modelled from the spec: the source calls `self._find_matching_endpoint`,
which is not defined in the files under review.  Per the spec the matching
criterion is an implementation-defined deterministic and total name/path
correspondence; we fix it as: the first backend endpoint whose `path` equals
the frontend service's `name`. -/
def find_matching_endpoint (service : Val) (endpoints : Val) : Except String (Option Val) :=
  match pyIter endpoints with
  | Except.error e => Except.error e
  | Except.ok es =>
    match pyGet service "name" Val.none with
    | Except.error e => Except.error e
    | Except.ok n => find_by_key "path" n es

/-- Modelled from the spec: the source calls `self._find_matching_model`,
which is not defined in the files under review.  Per the spec the match is a
name-based correspondence; we fix it as: the first backend model whose `name`
equals the frontend model's `name`. -/
def find_matching_model (f_model : Val) (models : Val) : Except String (Option Val) :=
  match pyIter models with
  | Except.error e => Except.error e
  | Except.ok ms =>
    match pyGet f_model "name" Val.none with
    | Except.error e => Except.error e
    | Except.ok n => find_by_key "name" n ms

/-- The finding appended by `_validate_api_contracts` for one frontend
service, in the two branches of the loop body. -/
def mk_api_finding (service : Val) (matching : Option Val) : Except String Val :=
  match matching with
  | Option.some e =>
    match pyGet service "name" Val.none with
    | Except.error err => Except.error err
    | Except.ok n =>
    match pyGet e "path" Val.none with
    | Except.error err => Except.error err
    | Except.ok p =>
    match pyGet service "methods" (Val.list []) with
    | Except.error err => Except.error err
    | Except.ok fm =>
    match pyGet e "methods" (Val.list []) with
    | Except.error err => Except.error err
    | Except.ok bm =>
    match compare_methods fm bm with
    | Except.error err => Except.error err
    | Except.ok d =>
        Except.ok (Val.dict [("type", Val.str "api_contract"),
          ("status", Val.str "matched"), ("frontend_service", n),
          ("backend_endpoint", p), ("methods", d)])
  | Option.none =>
    match pyGet service "name" Val.none with
    | Except.error err => Except.error err
    | Except.ok n =>
        Except.ok (Val.dict [("type", Val.str "api_contract"),
          ("status", Val.str "missing_endpoint"), ("frontend_service", n)])

/-- The loop of `_validate_api_contracts` over the frontend services. -/
def validate_api_list : List Val → Val → Except String (List Val)
  | [], _ => Except.ok []
  | s :: ss, endpoints =>
    match find_matching_endpoint s endpoints with
    | Except.error e => Except.error e
    | Except.ok m =>
      match mk_api_finding s m with
      | Except.error e => Except.error e
      | Except.ok f =>
        match validate_api_list ss endpoints with
        | Except.error e => Except.error e
        | Except.ok rest => Except.ok (f :: rest)

/-- Embeds `_validate_api_contracts`. -/
def validate_api_contracts (frontend_services backend_endpoints : Val) :
    Except String (List Val) :=
  match pyIter frontend_services with
  | Except.error e => Except.error e
  | Except.ok ss => validate_api_list ss backend_endpoints

/-- The finding appended by `_validate_data_models` for one frontend model,
in the two branches of the loop body. -/
def mk_model_finding (f_model : Val) (matching : Option Val) : Except String Val :=
  match matching with
  | Option.some b =>
    match pyGet f_model "name" Val.none with
    | Except.error err => Except.error err
    | Except.ok n =>
    match pyGet f_model "properties" (Val.list []) with
    | Except.error err => Except.error err
    | Except.ok fp =>
    match pyGet b "properties" (Val.list []) with
    | Except.error err => Except.error err
    | Except.ok bp =>
    match compare_properties fp bp with
    | Except.error err => Except.error err
    | Except.ok d =>
        Except.ok (Val.dict [("type", Val.str "data_model"),
          ("status", Val.str "matched"), ("model_name", n),
          ("property_diffs", d)])
  | Option.none =>
    match pyGet f_model "name" Val.none with
    | Except.error err => Except.error err
    | Except.ok n =>
        Except.ok (Val.dict [("type", Val.str "data_model"),
          ("status", Val.str "missing_model"), ("model_name", n)])

/-- The loop of `_validate_data_models` over the frontend models. -/
def validate_model_list : List Val → Val → Except String (List Val)
  | [], _ => Except.ok []
  | f :: fs, backend_models =>
    match find_matching_model f backend_models with
    | Except.error e => Except.error e
    | Except.ok m =>
      match mk_model_finding f m with
      | Except.error e => Except.error e
      | Except.ok finding =>
        match validate_model_list fs backend_models with
        | Except.error e => Except.error e
        | Except.ok rest => Except.ok (finding :: rest)

/-- Embeds `_validate_data_models`. -/
def validate_data_models (frontend_models backend_models : Val) :
    Except String (List Val) :=
  match pyIter frontend_models with
  | Except.error e => Except.error e
  | Except.ok fs => validate_model_list fs backend_models

/-- The mechanism-mismatch finding of `_validate_auth_implementation`. -/
def auth_mismatch_finding (f b : Val) : Val :=
  Val.dict [("type", Val.str "auth"), ("status", Val.str "mismatch"),
    ("component", Val.str "mechanism"), ("frontend", f), ("backend", b)]

/-- The role-mismatch finding of `_validate_auth_implementation`. -/
def role_mismatch_finding (ds : List Val) : Val :=
  Val.dict [("type", Val.str "auth"), ("status", Val.str "role_mismatch"),
    ("differences", Val.list ds)]

/-- Embeds `_validate_auth_implementation`. -/
def validate_auth_implementation (frontend_auth backend_auth : Val) :
    Except String (List Val) :=
  match pyGet frontend_auth "mechanism" Val.none with
  | Except.error e => Except.error e
  | Except.ok fm =>
    match pyGet backend_auth "mechanism" Val.none with
    | Except.error e => Except.error e
    | Except.ok bm =>
      match pyGet frontend_auth "roles" (Val.list []) with
      | Except.error e => Except.error e
      | Except.ok fr =>
        match pyGet backend_auth "roles" (Val.list []) with
        | Except.error e => Except.error e
        | Except.ok br =>
          match compare_roles fr br with
          | Except.error e => Except.error e
          | Except.ok ds =>
              Except.ok ((if Val.beq fm bm then [] else [auth_mismatch_finding fm bm])
                ++ (if ds.isEmpty then [] else [role_mismatch_finding ds]))

/-- The adjustment dictionary built by `_generate_adjustments`: three ordered
buckets. -/
structure Adjustments where
  frontend : List Val
  backend : List Val
  critical : List Val

/-- The `create_endpoint` adjustment appended by `_handle_api_mismatch`. -/
def create_endpoint_adj (s : Val) : Val :=
  Val.dict [("type", Val.str "create_endpoint"), ("service", s)]

/-- The `create_model` adjustment appended by `_handle_model_mismatch`. -/
def create_model_adj (m : Val) : Val :=
  Val.dict [("type", Val.str "create_model"), ("model", m)]

/-- The `auth_mechanism_mismatch` adjustment appended by
`_handle_auth_mismatch`. -/
def auth_mechanism_adj (f b : Val) : Val :=
  Val.dict [("type", Val.str "auth_mechanism_mismatch"),
    ("details", Val.dict [("frontend", f), ("backend", b)])]

/-- Embeds `_handle_api_mismatch`. -/
def handle_api_mismatch (result : Val) (adj : Adjustments) : Except String Adjustments :=
  match pyIndex result "status" with
  | Except.error e => Except.error e
  | Except.ok st =>
    if Val.beq st (Val.str "missing_endpoint") then
      match pyIndex result "frontend_service" with
      | Except.error e => Except.error e
      | Except.ok s =>
          Except.ok { adj with backend := adj.backend ++ [create_endpoint_adj s] }
    else if Val.beq st (Val.str "method_mismatch") then
      match pyIndex result "frontend_service" with
      | Except.error e => Except.error e
      | Except.ok s =>
        match pyIndex result "methods" with
        | Except.error e => Except.error e
        | Except.ok m =>
            Except.ok { adj with critical := adj.critical ++
              [Val.dict [("type", Val.str "api_method_mismatch"),
                ("service", s), ("details", m)]] }
    else Except.ok adj

/-- Embeds `_handle_model_mismatch`. -/
def handle_model_mismatch (result : Val) (adj : Adjustments) : Except String Adjustments :=
  match pyIndex result "status" with
  | Except.error e => Except.error e
  | Except.ok st =>
    if Val.beq st (Val.str "missing_model") then
      match pyIndex result "model_name" with
      | Except.error e => Except.error e
      | Except.ok m =>
          Except.ok { adj with backend := adj.backend ++ [create_model_adj m] }
    else if Val.beq st (Val.str "property_mismatch") then
      match pyIndex result "model_name" with
      | Except.error e => Except.error e
      | Except.ok m =>
        match pyIndex result "property_diffs" with
        | Except.error e => Except.error e
        | Except.ok d =>
            Except.ok { adj with critical := adj.critical ++
              [Val.dict [("type", Val.str "model_property_mismatch"),
                ("model", m), ("details", d)]] }
    else Except.ok adj

/-- Embeds `_handle_auth_mismatch`. -/
def handle_auth_mismatch (result : Val) (adj : Adjustments) : Except String Adjustments :=
  match pyIndex result "type" with
  | Except.error e => Except.error e
  | Except.ok ty =>
    if Val.beq ty (Val.str "auth") then
      match pyIndex result "frontend" with
      | Except.error e => Except.error e
      | Except.ok f =>
        match pyIndex result "backend" with
        | Except.error e => Except.error e
        | Except.ok b =>
            Except.ok { adj with critical := adj.critical ++ [auth_mechanism_adj f b] }
    else Except.ok adj

/-- The body of the `_generate_adjustments` loop for one finding. -/
def process_finding (result : Val) (adj : Adjustments) : Except String Adjustments :=
  match pyIndex result "status" with
  | Except.error e => Except.error e
  | Except.ok st =>
    if Val.beq st (Val.str "matched") then Except.ok adj
    else
      match pyIndex result "type" with
      | Except.error e => Except.error e
      | Except.ok ty =>
        if Val.beq ty (Val.str "api_contract") then handle_api_mismatch result adj
        else if Val.beq ty (Val.str "data_model") then handle_model_mismatch result adj
        else if Val.beq ty (Val.str "auth") then handle_auth_mismatch result adj
        else Except.ok adj

/-- The loop of `_generate_adjustments` over the findings. -/
def generate_adjustments_core : List Val → Adjustments → Except String Adjustments
  | [], adj => Except.ok adj
  | f :: fs, adj =>
    match process_finding f adj with
    | Except.error e => Except.error e
    | Except.ok adj2 => generate_adjustments_core fs adj2

/-- Embeds `_generate_adjustments`. -/
def generate_adjustments (sync_results : List Val) : Except String Adjustments :=
  generate_adjustments_core sync_results ⟨[], [], []⟩

/-- The returned adjustment dictionary as a Python value. -/
def Adjustments.toVal (a : Adjustments) : Val :=
  Val.dict [("frontend", Val.list a.frontend), ("backend", Val.list a.backend),
    ("critical", Val.list a.critical)]

/-- Embeds `_analyze_sync_points`. -/
def analyze_sync_points (frontend backend : Val) : Except String (List Val) :=
  match pyGet frontend "api_services" (Val.list []) with
  | Except.error e => Except.error e
  | Except.ok fsv =>
    match pyGet backend "api_endpoints" (Val.list []) with
    | Except.error e => Except.error e
    | Except.ok bsv =>
      match validate_api_contracts fsv bsv with
      | Except.error e => Except.error e
      | Except.ok api =>
        match pyGet frontend "models" (Val.list []) with
        | Except.error e => Except.error e
        | Except.ok fmv =>
          match pyGet backend "data_models" (Val.list []) with
          | Except.error e => Except.error e
          | Except.ok bmv =>
            match validate_data_models fmv bmv with
            | Except.error e => Except.error e
            | Except.ok ms =>
              match pyGet frontend "auth_config" (Val.dict []) with
              | Except.error e => Except.error e
              | Except.ok fa =>
                match pyGet backend "security_config" (Val.dict []) with
                | Except.error e => Except.error e
                | Except.ok ba =>
                  match validate_auth_implementation fa ba with
                  | Except.error e => Except.error e
                  | Except.ok auth => Except.ok (api ++ ms ++ auth)

/-- Embeds `FrontendBackendSync.arun`. -/
def arun (inputs : Val) : Except String Val :=
  match pyGet inputs "frontend_implementation" (Val.dict []) with
  | Except.error e => Except.error e
  | Except.ok fe =>
    match pyGet inputs "backend_implementation" (Val.dict []) with
    | Except.error e => Except.error e
    | Except.ok be =>
      match analyze_sync_points fe be with
      | Except.error e => Except.error e
      | Except.ok sync =>
        match generate_adjustments sync with
        | Except.error e => Except.error e
        | Except.ok adj =>
            Except.ok (Val.dict [("sync_results", Val.list sync),
              ("adjustments_needed", adj.toVal)])

/-- The finding appended by `_validate_api_contracts` when no matching
endpoint exists. -/
def missing_endpoint_finding (n : Val) : Val :=
  Val.dict [("type", Val.str "api_contract"),
    ("status", Val.str "missing_endpoint"), ("frontend_service", n)]

/-- Does the finding carry `status` equal to the given string?  (False as
well when the `status` key is absent.) -/
def statusIs (f : Val) (s : String) : Bool :=
  match pyIndex f "status" with
  | Except.ok v => Val.beq v (Val.str s)
  | Except.error _ => false

/-- Does the finding carry `type` equal to the given string? -/
def typeIs (f : Val) (t : String) : Bool :=
  match pyIndex f "type" with
  | Except.ok v => Val.beq v (Val.str t)
  | Except.error _ => false

/-- A finding with status `matched`. -/
def isMatched (f : Val) : Bool :=
  statusIs f "matched"

end FrontendBackendSync

namespace FrontendBackendSync

lemma process_finding_matched (f : Val) (adj : Adjustments)
    (h : isMatched f = true) : process_finding f adj = Except.ok adj := by
  unfold isMatched statusIs at h
  cases hst : pyIndex f "status" with
  | error e => rw [hst] at h; simp at h
  | ok st =>
      rw [hst] at h
      simp only [] at h
      simp [process_finding, hst, h]

lemma core_all_matched (fs : List Val) (adj : Adjustments)
    (h : ∀ f ∈ fs, isMatched f = true) :
    generate_adjustments_core fs adj = Except.ok adj := by
  induction fs with
  | nil => rfl
  | cons f fs ih =>
      unfold generate_adjustments_core
      rw [process_finding_matched f adj (h f (List.mem_cons_self f fs))]
      exact ih (fun g hg => h g (List.mem_cons_of_mem f hg))

lemma core_append_ok (xs ys : List Val) (adj adj2 : Adjustments)
    (h : generate_adjustments_core xs adj = Except.ok adj2) :
    generate_adjustments_core (xs ++ ys) adj = generate_adjustments_core ys adj2 := by
  induction xs generalizing adj with
  | nil =>
      simp [generate_adjustments_core] at h
      subst h
      rw [List.nil_append]
  | cons x xs ih =>
      rw [List.cons_append]
      simp only [generate_adjustments_core] at h ⊢
      cases hp : process_finding x adj with
      | error e => rw [hp] at h; simp at h
      | ok adj3 => rw [hp] at h; exact ih adj3 h

lemma process_auth_mismatch (f b : Val) (adj : Adjustments) :
    process_finding (auth_mismatch_finding f b) adj =
      Except.ok { adj with critical := adj.critical ++ [auth_mechanism_adj f b] } := rfl

lemma process_role_mismatch (ds : List Val) (adj : Adjustments) :
    process_finding (role_mismatch_finding ds) adj =
      Except.error "KeyError: frontend" := rfl

lemma process_missing_endpoint (n : Val) (adj : Adjustments) :
    process_finding (missing_endpoint_finding n) adj =
      Except.ok { adj with backend := adj.backend ++ [create_endpoint_adj n] } := rfl

lemma core_error_of_role_mismatch (l1 l2 : List Val) (ds : List Val)
    (adj : Adjustments) :
    ∃ e, generate_adjustments_core (l1 ++ role_mismatch_finding ds :: l2) adj =
      Except.error e := by
  induction l1 generalizing adj with
  | nil =>
      refine ⟨"KeyError: frontend", ?_⟩
      rw [List.nil_append]
      unfold generate_adjustments_core
      rw [process_role_mismatch]
  | cons x l1 ih =>
      rw [List.cons_append]
      unfold generate_adjustments_core
      cases hp : process_finding x adj with
      | error e => exact ⟨e, rfl⟩
      | ok adj2 => exact ih adj2

lemma core_filter_matched (fs : List Val) (adj : Adjustments) :
    generate_adjustments_core fs adj =
      generate_adjustments_core (fs.filter (fun g => !(isMatched g))) adj := by
  induction fs generalizing adj with
  | nil => rfl
  | cons f fs ih =>
      cases hm : isMatched f with
      | true =>
          have hf : List.filter (fun g => !(isMatched g)) (f :: fs) =
              List.filter (fun g => !(isMatched g)) fs := by
            simp [List.filter_cons, hm]
          rw [hf]
          simp only [generate_adjustments_core]
          rw [process_finding_matched f adj hm]
          exact ih adj
      | false =>
          have hf : List.filter (fun g => !(isMatched g)) (f :: fs) =
              f :: List.filter (fun g => !(isMatched g)) fs := by
            simp [List.filter_cons, hm]
          rw [hf]
          simp only [generate_adjustments_core]
          cases hp : process_finding f adj with
          | error e => rfl
          | ok adj2 => exact ih adj2

lemma handle_api_crit (f : Val) (adj adj2 : Adjustments)
    (hp : handle_api_mismatch f adj = Except.ok adj2) :
    adj2.critical = adj.critical ∨
      (statusIs f "method_mismatch" = true ∧
        ∃ y, adj2.critical = adj.critical ++ [y]) := by
  unfold handle_api_mismatch at hp
  cases hst : pyIndex f "status" with
  | error e => rw [hst] at hp; simp at hp
  | ok st =>
      rw [hst] at hp
      simp only [] at hp
      by_cases h1 : Val.beq st (Val.str "missing_endpoint") = true
      · rw [if_pos h1] at hp
        cases hfs : pyIndex f "frontend_service" with
        | error e => rw [hfs] at hp; simp at hp
        | ok s =>
            rw [hfs] at hp
            simp only [Except.ok.injEq] at hp
            subst hp
            exact Or.inl rfl
      · rw [if_neg h1] at hp
        by_cases h2 : Val.beq st (Val.str "method_mismatch") = true
        · rw [if_pos h2] at hp
          cases hfs : pyIndex f "frontend_service" with
          | error e => rw [hfs] at hp; simp at hp
          | ok s =>
              rw [hfs] at hp
              cases hm : pyIndex f "methods" with
              | error e => rw [hm] at hp; simp at hp
              | ok m =>
                  rw [hm] at hp
                  simp only [Except.ok.injEq] at hp
                  subst hp
                  refine Or.inr ⟨?_, ⟨_, rfl⟩⟩
                  unfold statusIs
                  rw [hst]
                  exact h2
        · rw [if_neg h2] at hp
          simp only [Except.ok.injEq] at hp
          subst hp
          exact Or.inl rfl

lemma handle_model_crit (f : Val) (adj adj2 : Adjustments)
    (hp : handle_model_mismatch f adj = Except.ok adj2) :
    adj2.critical = adj.critical ∨
      (statusIs f "property_mismatch" = true ∧
        ∃ y, adj2.critical = adj.critical ++ [y]) := by
  unfold handle_model_mismatch at hp
  cases hst : pyIndex f "status" with
  | error e => rw [hst] at hp; simp at hp
  | ok st =>
      rw [hst] at hp
      simp only [] at hp
      by_cases h1 : Val.beq st (Val.str "missing_model") = true
      · rw [if_pos h1] at hp
        cases hmn : pyIndex f "model_name" with
        | error e => rw [hmn] at hp; simp at hp
        | ok m =>
            rw [hmn] at hp
            simp only [Except.ok.injEq] at hp
            subst hp
            exact Or.inl rfl
      · rw [if_neg h1] at hp
        by_cases h2 : Val.beq st (Val.str "property_mismatch") = true
        · rw [if_pos h2] at hp
          cases hmn : pyIndex f "model_name" with
          | error e => rw [hmn] at hp; simp at hp
          | ok m =>
              rw [hmn] at hp
              cases hd : pyIndex f "property_diffs" with
              | error e => rw [hd] at hp; simp at hp
              | ok d =>
                  rw [hd] at hp
                  simp only [Except.ok.injEq] at hp
                  subst hp
                  refine Or.inr ⟨?_, ⟨_, rfl⟩⟩
                  unfold statusIs
                  rw [hst]
                  exact h2
        · rw [if_neg h2] at hp
          simp only [Except.ok.injEq] at hp
          subst hp
          exact Or.inl rfl

lemma handle_auth_crit (f : Val) (adj adj2 : Adjustments)
    (hp : handle_auth_mismatch f adj = Except.ok adj2) :
    adj2.critical = adj.critical ∨
      ∃ a b, adj2.critical = adj.critical ++ [auth_mechanism_adj a b] := by
  unfold handle_auth_mismatch at hp
  cases hty : pyIndex f "type" with
  | error e => rw [hty] at hp; simp at hp
  | ok ty =>
      rw [hty] at hp
      simp only [] at hp
      by_cases h1 : Val.beq ty (Val.str "auth") = true
      · rw [if_pos h1] at hp
        cases ha : pyIndex f "frontend" with
        | error e => rw [ha] at hp; simp at hp
        | ok a =>
            rw [ha] at hp
            cases hb : pyIndex f "backend" with
            | error e => rw [hb] at hp; simp at hp
            | ok b =>
                rw [hb] at hp
                simp only [Except.ok.injEq] at hp
                subst hp
                exact Or.inr ⟨a, b, rfl⟩
      · rw [if_neg h1] at hp
        simp only [Except.ok.injEq] at hp
        subst hp
        exact Or.inl rfl

lemma process_crit (f : Val) (adj adj2 : Adjustments)
    (hp : process_finding f adj = Except.ok adj2) :
    adj2.critical = adj.critical ∨
      (statusIs f "method_mismatch" = true ∧
        ∃ y, adj2.critical = adj.critical ++ [y]) ∨
      (statusIs f "property_mismatch" = true ∧
        ∃ y, adj2.critical = adj.critical ++ [y]) ∨
      ∃ a b, adj2.critical = adj.critical ++ [auth_mechanism_adj a b] := by
  unfold process_finding at hp
  cases hst : pyIndex f "status" with
  | error e => rw [hst] at hp; simp at hp
  | ok st =>
      rw [hst] at hp
      simp only [] at hp
      by_cases h0 : Val.beq st (Val.str "matched") = true
      · rw [if_pos h0] at hp
        simp only [Except.ok.injEq] at hp
        subst hp
        exact Or.inl rfl
      · rw [if_neg h0] at hp
        cases hty : pyIndex f "type" with
        | error e => rw [hty] at hp; simp at hp
        | ok ty =>
            rw [hty] at hp
            simp only [] at hp
            by_cases h1 : Val.beq ty (Val.str "api_contract") = true
            · rw [if_pos h1] at hp
              rcases handle_api_crit f adj adj2 hp with h | ⟨hs, hy⟩
              · exact Or.inl h
              · exact Or.inr (Or.inl ⟨hs, hy⟩)
            · rw [if_neg h1] at hp
              by_cases h2 : Val.beq ty (Val.str "data_model") = true
              · rw [if_pos h2] at hp
                rcases handle_model_crit f adj adj2 hp with h | ⟨hs, hy⟩
                · exact Or.inl h
                · exact Or.inr (Or.inr (Or.inl ⟨hs, hy⟩))
              · rw [if_neg h2] at hp
                by_cases h3 : Val.beq ty (Val.str "auth") = true
                · rw [if_pos h3] at hp
                  rcases handle_auth_crit f adj adj2 hp with h | hab
                  · exact Or.inl h
                  · exact Or.inr (Or.inr (Or.inr hab))
                · rw [if_neg h3] at hp
                  simp only [Except.ok.injEq] at hp
                  subst hp
                  exact Or.inl rfl

lemma process_crit_mono (f : Val) (adj adj2 : Adjustments)
    (hp : process_finding f adj = Except.ok adj2) :
    ∀ x ∈ adj.critical, x ∈ adj2.critical := by
  intro x hx
  rcases process_crit f adj adj2 hp with h | ⟨_, _, h⟩ | ⟨_, _, h⟩ | ⟨_, _, h⟩ <;>
    rw [h]
  · exact hx
  all_goals exact List.mem_append_left _ hx

lemma core_crit_mono (fs : List Val) (adj res : Adjustments)
    (h : generate_adjustments_core fs adj = Except.ok res) :
    ∀ x ∈ adj.critical, x ∈ res.critical := by
  induction fs generalizing adj with
  | nil =>
      simp [generate_adjustments_core] at h
      subst h
      exact fun x hx => hx
  | cons f fs ih =>
      simp only [generate_adjustments_core] at h
      cases hp : process_finding f adj with
      | error e => rw [hp] at h; simp at h
      | ok adj2 =>
          rw [hp] at h
          exact fun x hx => ih adj2 h x (process_crit_mono f adj adj2 hp x hx)

lemma core_auth_member (fs : List Val) (adj res : Adjustments) (f b : Val)
    (hmem : auth_mismatch_finding f b ∈ fs)
    (h : generate_adjustments_core fs adj = Except.ok res) :
    auth_mechanism_adj f b ∈ res.critical := by
  induction fs generalizing adj with
  | nil => cases hmem
  | cons x fs ih =>
      simp only [generate_adjustments_core] at h
      rcases List.mem_cons.mp hmem with hx | hx
      · subst hx
        rw [process_auth_mismatch] at h
        refine core_crit_mono fs _ res h _ ?_
        exact List.mem_append_right _ (List.mem_singleton.mpr rfl)
      · cases hp : process_finding x adj with
        | error e => rw [hp] at h; simp at h
        | ok adj2 => rw [hp] at h; exact ih adj2 hx h

lemma statusIs_of_eq (f : Val) (s t : String)
    (h : pyIndex f "status" = Except.ok (Val.str s)) :
    statusIs f t = (s == t) := by
  unfold statusIs
  rw [h]
  rfl

lemma mk_api_finding_shape (s : Val) (m : Option Val) (f : Val)
    (h : mk_api_finding s m = Except.ok f) :
    pyIndex f "type" = Except.ok (Val.str "api_contract") ∧
      (pyIndex f "status" = Except.ok (Val.str "matched") ∨
       pyIndex f "status" = Except.ok (Val.str "missing_endpoint")) := by
  cases m with
  | none =>
      unfold mk_api_finding at h
      cases hn : pyGet s "name" Val.none with
      | error e2 => simp only [hn] at h; exact Except.noConfusion h
      | ok n =>
          simp only [hn] at h
          simp only [Except.ok.injEq] at h
          subst h
          exact ⟨rfl, Or.inr rfl⟩
  | some e =>
      unfold mk_api_finding at h
      cases hn : pyGet s "name" Val.none with
      | error e2 => simp only [hn] at h; exact Except.noConfusion h
      | ok n =>
          simp only [hn] at h
          cases hp2 : pyGet e "path" Val.none with
          | error e2 => simp only [hp2] at h; exact Except.noConfusion h
          | ok p =>
              simp only [hp2] at h
              cases hm1 : pyGet s "methods" (Val.list []) with
              | error e2 => simp only [hm1] at h; exact Except.noConfusion h
              | ok fm =>
                  simp only [hm1] at h
                  cases hm2 : pyGet e "methods" (Val.list []) with
                  | error e2 => simp only [hm2] at h; exact Except.noConfusion h
                  | ok bm =>
                      simp only [hm2] at h
                      cases hc : compare_methods fm bm with
                      | error e2 => simp only [hc] at h; exact Except.noConfusion h
                      | ok d =>
                          simp only [hc] at h
                          simp only [Except.ok.injEq] at h
                          subst h
                          exact ⟨rfl, Or.inl rfl⟩

lemma validate_api_list_shape (ss : List Val) (eps : Val) (fs : List Val)
    (h : validate_api_list ss eps = Except.ok fs) :
    ∀ f ∈ fs, pyIndex f "type" = Except.ok (Val.str "api_contract") ∧
      (pyIndex f "status" = Except.ok (Val.str "matched") ∨
       pyIndex f "status" = Except.ok (Val.str "missing_endpoint")) := by
  induction ss generalizing fs with
  | nil =>
      simp [validate_api_list] at h
      subst h
      intro f hf
      cases hf
  | cons s ss ih =>
      simp only [validate_api_list] at h
      cases hm : find_matching_endpoint s eps with
      | error e => simp only [hm] at h; exact Except.noConfusion h
      | ok m =>
          simp only [hm] at h
          cases hmk : mk_api_finding s m with
          | error e => simp only [hmk] at h; exact Except.noConfusion h
          | ok f0 =>
              simp only [hmk] at h
              cases hrest : validate_api_list ss eps with
              | error e => simp only [hrest] at h; exact Except.noConfusion h
              | ok rest =>
                  simp only [hrest] at h
                  simp only [Except.ok.injEq] at h
                  subst h
                  intro f hf
                  rcases List.mem_cons.mp hf with hf | hf
                  · rw [hf]
                    exact mk_api_finding_shape s m f0 hmk
                  · exact ih rest hrest f hf

lemma mk_model_finding_shape (s : Val) (m : Option Val) (f : Val)
    (h : mk_model_finding s m = Except.ok f) :
    pyIndex f "type" = Except.ok (Val.str "data_model") ∧
      (pyIndex f "status" = Except.ok (Val.str "matched") ∨
       pyIndex f "status" = Except.ok (Val.str "missing_model")) := by
  cases m with
  | none =>
      unfold mk_model_finding at h
      cases hn : pyGet s "name" Val.none with
      | error e2 => simp only [hn] at h; exact Except.noConfusion h
      | ok n =>
          simp only [hn] at h
          simp only [Except.ok.injEq] at h
          subst h
          exact ⟨rfl, Or.inr rfl⟩
  | some b =>
      unfold mk_model_finding at h
      cases hn : pyGet s "name" Val.none with
      | error e2 => simp only [hn] at h; exact Except.noConfusion h
      | ok n =>
          simp only [hn] at h
          cases hp2 : pyGet s "properties" (Val.list []) with
          | error e2 => simp only [hp2] at h; exact Except.noConfusion h
          | ok fp =>
              simp only [hp2] at h
              cases hbp : pyGet b "properties" (Val.list []) with
              | error e2 => simp only [hbp] at h; exact Except.noConfusion h
              | ok bp =>
                  simp only [hbp] at h
                  cases hc : compare_properties fp bp with
                  | error e2 => simp only [hc] at h; exact Except.noConfusion h
                  | ok d =>
                      simp only [hc] at h
                      simp only [Except.ok.injEq] at h
                      subst h
                      exact ⟨rfl, Or.inl rfl⟩

lemma validate_model_list_shape (ss : List Val) (bms : Val) (fs : List Val)
    (h : validate_model_list ss bms = Except.ok fs) :
    ∀ f ∈ fs, pyIndex f "type" = Except.ok (Val.str "data_model") ∧
      (pyIndex f "status" = Except.ok (Val.str "matched") ∨
       pyIndex f "status" = Except.ok (Val.str "missing_model")) := by
  induction ss generalizing fs with
  | nil =>
      simp [validate_model_list] at h
      subst h
      intro f hf
      cases hf
  | cons s ss ih =>
      simp only [validate_model_list] at h
      cases hm : find_matching_model s bms with
      | error e => simp only [hm] at h; exact Except.noConfusion h
      | ok m =>
          simp only [hm] at h
          cases hmk : mk_model_finding s m with
          | error e => simp only [hmk] at h; exact Except.noConfusion h
          | ok f0 =>
              simp only [hmk] at h
              cases hrest : validate_model_list ss bms with
              | error e => simp only [hrest] at h; exact Except.noConfusion h
              | ok rest =>
                  simp only [hrest] at h
                  simp only [Except.ok.injEq] at h
                  subst h
                  intro f hf
                  rcases List.mem_cons.mp hf with hf | hf
                  · rw [hf]
                    exact mk_model_finding_shape s m f0 hmk
                  · exact ih rest hrest f hf

lemma validate_auth_shape (fa ba : Val) (fs : List Val)
    (h : validate_auth_implementation fa ba = Except.ok fs) :
    ∀ f ∈ fs, pyIndex f "type" = Except.ok (Val.str "auth") ∧
      (pyIndex f "status" = Except.ok (Val.str "mismatch") ∨
       pyIndex f "status" = Except.ok (Val.str "role_mismatch")) := by
  unfold validate_auth_implementation at h
  cases h1 : pyGet fa "mechanism" Val.none with
  | error e => simp only [h1] at h; exact Except.noConfusion h
  | ok fm =>
      simp only [h1] at h
      cases h2 : pyGet ba "mechanism" Val.none with
      | error e => simp only [h2] at h; exact Except.noConfusion h
      | ok bm =>
          simp only [h2] at h
          cases h3 : pyGet fa "roles" (Val.list []) with
          | error e => simp only [h3] at h; exact Except.noConfusion h
          | ok fr =>
              simp only [h3] at h
              cases h4 : pyGet ba "roles" (Val.list []) with
              | error e => simp only [h4] at h; exact Except.noConfusion h
              | ok br =>
                  simp only [h4] at h
                  cases h5 : compare_roles fr br with
                  | error e => simp only [h5] at h; exact Except.noConfusion h
                  | ok ds =>
                      simp only [h5] at h
                      simp only [Except.ok.injEq] at h
                      subst h
                      intro f hf
                      rcases List.mem_append.mp hf with hf | hf
                      · by_cases hb : Val.beq fm bm = true
                        · rw [if_pos hb] at hf
                          cases hf
                        · rw [if_neg hb] at hf
                          rcases List.mem_singleton.mp hf with rfl
                          exact ⟨rfl, Or.inl rfl⟩
                      · by_cases hb : ds.isEmpty = true
                        · rw [if_pos hb] at hf
                          cases hf
                        · rw [if_neg hb] at hf
                          rcases List.mem_singleton.mp hf with rfl
                          exact ⟨rfl, Or.inr rfl⟩

lemma validate_api_contracts_shape (fsv bsv : Val) (api : List Val)
    (h : validate_api_contracts fsv bsv = Except.ok api) :
    ∀ f ∈ api, pyIndex f "type" = Except.ok (Val.str "api_contract") ∧
      (pyIndex f "status" = Except.ok (Val.str "matched") ∨
       pyIndex f "status" = Except.ok (Val.str "missing_endpoint")) := by
  unfold validate_api_contracts at h
  cases hi : pyIter fsv with
  | error e => simp only [hi] at h; exact Except.noConfusion h
  | ok ss =>
      simp only [hi] at h
      exact validate_api_list_shape ss bsv api h

lemma validate_data_models_shape (fmv bmv : Val) (ms : List Val)
    (h : validate_data_models fmv bmv = Except.ok ms) :
    ∀ f ∈ ms, pyIndex f "type" = Except.ok (Val.str "data_model") ∧
      (pyIndex f "status" = Except.ok (Val.str "matched") ∨
       pyIndex f "status" = Except.ok (Val.str "missing_model")) := by
  unfold validate_data_models at h
  cases hi : pyIter fmv with
  | error e => simp only [hi] at h; exact Except.noConfusion h
  | ok ss =>
      simp only [hi] at h
      exact validate_model_list_shape ss bmv ms h

lemma validate_auth_role_only (fa ba : Val) (m : String) (fr br : Val)
    (ds : List Val)
    (hfm : pyGet fa "mechanism" Val.none = Except.ok (Val.str m))
    (hbm : pyGet ba "mechanism" Val.none = Except.ok (Val.str m))
    (hfr : pyGet fa "roles" (Val.list []) = Except.ok fr)
    (hbr : pyGet ba "roles" (Val.list []) = Except.ok br)
    (hds : compare_roles fr br = Except.ok ds)
    (hne : ds ≠ []) :
    validate_auth_implementation fa ba = Except.ok [role_mismatch_finding ds] := by
  have h1 : Val.beq (Val.str m) (Val.str m) = true := by
    simp [Val.beq]
  have h2 : ds.isEmpty = false := by
    cases ds with
    | nil => exact absurd rfl hne
    | cons a l => rfl
  simp only [validate_auth_implementation, hfm, hbm, hfr, hbr, hds, h1, h2,
    if_true, Bool.false_eq_true, if_false, List.nil_append]

lemma validate_auth_mech_only (fa ba : Val) (fmv bmv : Val) (fr br : Val)
    (hfm : pyGet fa "mechanism" Val.none = Except.ok fmv)
    (hbm : pyGet ba "mechanism" Val.none = Except.ok bmv)
    (hneq : Val.beq fmv bmv = false)
    (hfr : pyGet fa "roles" (Val.list []) = Except.ok fr)
    (hbr : pyGet ba "roles" (Val.list []) = Except.ok br)
    (hds : compare_roles fr br = Except.ok []) :
    validate_auth_implementation fa ba = Except.ok [auth_mismatch_finding fmv bmv] := by
  simp only [validate_auth_implementation, hfm, hbm, hfr, hbr, hds, hneq,
    Bool.false_eq_true, if_false, List.isEmpty_nil, if_true, List.append_nil]

lemma analyze_eq (fe be : Val) (fsv bsv fmv bmv fa ba : Val)
    (api ms auth : List Val)
    (h1 : pyGet fe "api_services" (Val.list []) = Except.ok fsv)
    (h2 : pyGet be "api_endpoints" (Val.list []) = Except.ok bsv)
    (h3 : validate_api_contracts fsv bsv = Except.ok api)
    (h4 : pyGet fe "models" (Val.list []) = Except.ok fmv)
    (h5 : pyGet be "data_models" (Val.list []) = Except.ok bmv)
    (h6 : validate_data_models fmv bmv = Except.ok ms)
    (h7 : pyGet fe "auth_config" (Val.dict []) = Except.ok fa)
    (h8 : pyGet be "security_config" (Val.dict []) = Except.ok ba)
    (h9 : validate_auth_implementation fa ba = Except.ok auth) :
    analyze_sync_points fe be = Except.ok (api ++ ms ++ auth) := by
  simp only [analyze_sync_points, h1, h2, h3, h4, h5, h6, h7, h8, h9]

lemma analyze_ok_inv (fe be : Val) (sync : List Val)
    (h : analyze_sync_points fe be = Except.ok sync) :
    ∃ fsv bsv api fmv bmv ms fa ba auth,
      validate_api_contracts fsv bsv = Except.ok api ∧
      validate_data_models fmv bmv = Except.ok ms ∧
      validate_auth_implementation fa ba = Except.ok auth ∧
      sync = api ++ ms ++ auth := by
  unfold analyze_sync_points at h
  cases h1 : pyGet fe "api_services" (Val.list []) with
  | error e => simp only [h1] at h; exact Except.noConfusion h
  | ok fsv =>
  simp only [h1] at h
  cases h2 : pyGet be "api_endpoints" (Val.list []) with
  | error e => simp only [h2] at h; exact Except.noConfusion h
  | ok bsv =>
  simp only [h2] at h
  cases h3 : validate_api_contracts fsv bsv with
  | error e => simp only [h3] at h; exact Except.noConfusion h
  | ok api =>
  simp only [h3] at h
  cases h4 : pyGet fe "models" (Val.list []) with
  | error e => simp only [h4] at h; exact Except.noConfusion h
  | ok fmv =>
  simp only [h4] at h
  cases h5 : pyGet be "data_models" (Val.list []) with
  | error e => simp only [h5] at h; exact Except.noConfusion h
  | ok bmv =>
  simp only [h5] at h
  cases h6 : validate_data_models fmv bmv with
  | error e => simp only [h6] at h; exact Except.noConfusion h
  | ok ms =>
  simp only [h6] at h
  cases h7 : pyGet fe "auth_config" (Val.dict []) with
  | error e => simp only [h7] at h; exact Except.noConfusion h
  | ok fa =>
  simp only [h7] at h
  cases h8 : pyGet be "security_config" (Val.dict []) with
  | error e => simp only [h8] at h; exact Except.noConfusion h
  | ok ba =>
  simp only [h8] at h
  cases h9 : validate_auth_implementation fa ba with
  | error e => simp only [h9] at h; exact Except.noConfusion h
  | ok auth =>
  simp only [h9, Except.ok.injEq] at h
  exact ⟨fsv, bsv, api, fmv, bmv, ms, fa, ba, auth, h3, h6, h9, h.symm⟩

lemma analyze_cases (fe be fa ba : Val) (auth : List Val)
    (h7 : pyGet fe "auth_config" (Val.dict []) = Except.ok fa)
    (h8 : pyGet be "security_config" (Val.dict []) = Except.ok ba)
    (h9 : validate_auth_implementation fa ba = Except.ok auth) :
    (∃ e, analyze_sync_points fe be = Except.error e) ∨
    (∃ api ms, analyze_sync_points fe be = Except.ok (api ++ ms ++ auth)) := by
  cases h1 : pyGet fe "api_services" (Val.list []) with
  | error e => exact Or.inl ⟨e, by simp only [analyze_sync_points, h1]⟩
  | ok fsv =>
  cases h2 : pyGet be "api_endpoints" (Val.list []) with
  | error e => exact Or.inl ⟨e, by simp only [analyze_sync_points, h1, h2]⟩
  | ok bsv =>
  cases h3 : validate_api_contracts fsv bsv with
  | error e => exact Or.inl ⟨e, by simp only [analyze_sync_points, h1, h2, h3]⟩
  | ok api =>
  cases h4 : pyGet fe "models" (Val.list []) with
  | error e => exact Or.inl ⟨e, by simp only [analyze_sync_points, h1, h2, h3, h4]⟩
  | ok fmv =>
  cases h5 : pyGet be "data_models" (Val.list []) with
  | error e => exact Or.inl ⟨e, by simp only [analyze_sync_points, h1, h2, h3, h4, h5]⟩
  | ok bmv =>
  cases h6 : validate_data_models fmv bmv with
  | error e => exact Or.inl ⟨e, by simp only [analyze_sync_points, h1, h2, h3, h4, h5, h6]⟩
  | ok ms =>
  exact Or.inr ⟨api, ms,
    analyze_eq fe be fsv bsv fmv bmv fa ba api ms auth h1 h2 h3 h4 h5 h6 h7 h8 h9⟩

lemma arun_eq (fe be : Val) (sync : List Val) (adj : Adjustments)
    (h1 : analyze_sync_points fe be = Except.ok sync)
    (h2 : generate_adjustments sync = Except.ok adj) :
    arun (Val.dict [("frontend_implementation", fe), ("backend_implementation", be)]) =
      Except.ok (Val.dict [("sync_results", Val.list sync),
        ("adjustments_needed", adj.toVal)]) := by
  have hf : pyGet (Val.dict [("frontend_implementation", fe),
      ("backend_implementation", be)]) "frontend_implementation" (Val.dict []) =
      Except.ok fe := rfl
  have hb : pyGet (Val.dict [("frontend_implementation", fe),
      ("backend_implementation", be)]) "backend_implementation" (Val.dict []) =
      Except.ok be := rfl
  simp only [arun, hf, hb, h1, h2]

lemma arun_err_analyze (fe be : Val) (e : String)
    (h1 : analyze_sync_points fe be = Except.error e) :
    arun (Val.dict [("frontend_implementation", fe), ("backend_implementation", be)]) =
      Except.error e := by
  have hf : pyGet (Val.dict [("frontend_implementation", fe),
      ("backend_implementation", be)]) "frontend_implementation" (Val.dict []) =
      Except.ok fe := rfl
  have hb : pyGet (Val.dict [("frontend_implementation", fe),
      ("backend_implementation", be)]) "backend_implementation" (Val.dict []) =
      Except.ok be := rfl
  simp only [arun, hf, hb, h1]

lemma status_not_bad (f : Val)
    (h : pyIndex f "status" = Except.ok (Val.str "matched") ∨
         pyIndex f "status" = Except.ok (Val.str "missing_endpoint") ∨
         pyIndex f "status" = Except.ok (Val.str "missing_model") ∨
         pyIndex f "status" = Except.ok (Val.str "mismatch") ∨
         pyIndex f "status" = Except.ok (Val.str "role_mismatch")) :
    statusIs f "method_mismatch" = false ∧ statusIs f "property_mismatch" = false := by
  rcases h with h | h | h | h | h <;>
    exact ⟨by rw [statusIs_of_eq f _ _ h]; rfl, by rw [statusIs_of_eq f _ _ h]; rfl⟩

lemma analyze_statuses (fe be : Val) (sync : List Val)
    (h : analyze_sync_points fe be = Except.ok sync) :
    ∀ f ∈ sync,
      pyIndex f "status" = Except.ok (Val.str "matched") ∨
      pyIndex f "status" = Except.ok (Val.str "missing_endpoint") ∨
      pyIndex f "status" = Except.ok (Val.str "missing_model") ∨
      pyIndex f "status" = Except.ok (Val.str "mismatch") ∨
      pyIndex f "status" = Except.ok (Val.str "role_mismatch") := by
  rcases analyze_ok_inv fe be sync h with
    ⟨fsv, bsv, api, fmv, bmv, ms, fa, ba, auth, h3, h6, h9, rfl⟩
  intro f hf
  rcases List.mem_append.mp hf with hf | hf
  · rcases List.mem_append.mp hf with hf | hf
    · rcases (validate_api_contracts_shape fsv bsv api h3 f hf).2 with h | h
      · exact Or.inl h
      · exact Or.inr (Or.inl h)
    · rcases (validate_data_models_shape fmv bmv ms h6 f hf).2 with h | h
      · exact Or.inl h
      · exact Or.inr (Or.inr (Or.inl h))
  · rcases (validate_auth_shape fa ba auth h9 f hf).2 with h | h
    · exact Or.inr (Or.inr (Or.inr (Or.inl h)))
    · exact Or.inr (Or.inr (Or.inr (Or.inr h)))

lemma core_crit_auth_only (fs : List Val) : ∀ (adj res : Adjustments),
    generate_adjustments_core fs adj = Except.ok res →
    (∀ f ∈ fs, statusIs f "method_mismatch" = false ∧
      statusIs f "property_mismatch" = false) →
    ∀ x ∈ res.critical, x ∈ adj.critical ∨ ∃ a b, x = auth_mechanism_adj a b := by
  induction fs with
  | nil =>
      intro adj res h hs x hx
      simp [generate_adjustments_core] at h
      subst h
      exact Or.inl hx
  | cons f fs ih =>
      intro adj res h hs x hx
      simp only [generate_adjustments_core] at h
      cases hp : process_finding f adj with
      | error e => rw [hp] at h; exact Except.noConfusion h
      | ok adj2 =>
          rw [hp] at h
          rcases ih adj2 res h (fun g hg => hs g (List.mem_cons_of_mem f hg)) x hx with
            hx2 | hx2
          · rcases process_crit f adj adj2 hp with he | ⟨hm, hy⟩ | ⟨hm, hy⟩ | ⟨a, b, he⟩
            · rw [he] at hx2; exact Or.inl hx2
            · rw [(hs f (List.mem_cons_self f fs)).1] at hm; exact Bool.noConfusion hm
            · rw [(hs f (List.mem_cons_self f fs)).2] at hm; exact Bool.noConfusion hm
            · rw [he] at hx2
              rcases List.mem_append.mp hx2 with h3 | h3
              · exact Or.inl h3
              · exact Or.inr ⟨a, b, List.mem_singleton.mp h3⟩
          · exact Or.inr hx2

lemma arun_err_generate (fe be : Val) (sync : List Val) (e : String)
    (h1 : analyze_sync_points fe be = Except.ok sync)
    (h2 : generate_adjustments sync = Except.error e) :
    arun (Val.dict [("frontend_implementation", fe), ("backend_implementation", be)]) =
      Except.error e := by
  have hf : pyGet (Val.dict [("frontend_implementation", fe),
      ("backend_implementation", be)]) "frontend_implementation" (Val.dict []) =
      Except.ok fe := rfl
  have hb : pyGet (Val.dict [("frontend_implementation", fe),
      ("backend_implementation", be)]) "backend_implementation" (Val.dict []) =
      Except.ok be := rfl
  simp only [arun, hf, hb, h1, h2]

end FrontendBackendSync

lemma opt_part_inv (kvs : List (String × Val)) (key : String)
    (build : List Val → Except String (List Val)) (ts : List Val)
    (h : opt_tasks_part (Val.dict kvs) key build = Except.ok ts) :
    (lookupKey kvs key = Option.none ∧ ts = []) ∨
    (∃ v xs, lookupKey kvs key = Option.some v ∧ pyIter v = Except.ok xs ∧
      build xs = Except.ok ts) := by
  unfold opt_tasks_part at h
  have hc : pyContains (Val.dict kvs) key = Except.ok ((lookupKey kvs key).isSome) := rfl
  simp only [hc] at h
  cases hk : lookupKey kvs key with
  | none =>
      simp only [hk, Option.isSome_none, Bool.false_eq_true, if_false,
        Except.ok.injEq] at h
      exact Or.inl ⟨rfl, h.symm⟩
  | some v =>
      simp only [hk, Option.isSome_some, if_true] at h
      have hidx : pyIndex (Val.dict kvs) key = Except.ok v := by
        simp [pyIndex, hk]
      simp only [hidx] at h
      cases hit : pyIter v with
      | error e => simp only [hit] at h; exact Except.noConfusion h
      | ok xs =>
          simp only [hit] at h
          exact Or.inr ⟨v, xs, rfl, hit, h⟩

namespace DesignToFrontend

lemma mk_component_task_ok (c t : Val) (h : mk_component_task c = Except.ok t) :
    ∃ ckvs, c = Val.dict ckvs ∧
      t = Val.dict [("type", Val.str "component"),
        ("name", (lookupKey ckvs "name").getD Val.none),
        ("requirements", (lookupKey ckvs "requirements").getD (Val.list [])),
        ("dependencies", (lookupKey ckvs "dependencies").getD (Val.list []))] := by
  cases c with
  | none => simp [mk_component_task, pyGet] at h
  | str s => simp [mk_component_task, pyGet] at h
  | list xs => simp [mk_component_task, pyGet] at h
  | dict ckvs => exact ⟨ckvs, rfl, (Except.ok.inj h).symm⟩

lemma create_component_tasks_ok (cs ts : List Val)
    (h : create_component_tasks cs = Except.ok ts) :
    ts.length = cs.length ∧
    (∀ i (hi : i < cs.length) (hi2 : i < ts.length),
      mk_component_task (cs.get ⟨i, hi⟩) = Except.ok (ts.get ⟨i, hi2⟩)) ∧
    (∀ t ∈ ts, pyIndex t "type" = Except.ok (Val.str "component")) := by
  induction cs generalizing ts with
  | nil =>
      simp [create_component_tasks] at h
      subst h
      exact ⟨rfl, fun i hi hi2 => absurd hi (Nat.not_lt_zero i),
        fun t ht => absurd ht (List.not_mem_nil t)⟩
  | cons c cs ih =>
      simp only [create_component_tasks] at h
      cases hmk : mk_component_task c with
      | error e => simp only [hmk] at h; exact Except.noConfusion h
      | ok t =>
          simp only [hmk] at h
          cases hrest : create_component_tasks cs with
          | error e => simp only [hrest] at h; exact Except.noConfusion h
          | ok ts2 =>
              simp only [hrest, Except.ok.injEq] at h
              subst h
              obtain ⟨hlen, hpt, hty⟩ := ih ts2 hrest
              refine ⟨by simp [hlen], ?_, ?_⟩
              · intro i hi hi2
                cases i with
                | zero => exact hmk
                | succ j =>
                    exact hpt j (Nat.lt_of_succ_lt_succ hi) (Nat.lt_of_succ_lt_succ hi2)
              · intro t2 ht2
                rcases List.mem_cons.mp ht2 with rfl | ht2
                · obtain ⟨ckvs, hc, ht⟩ := mk_component_task_ok c t2 hmk
                  rw [ht]
                  rfl
                · exact hty t2 ht2

lemma mk_service_task_type (c t : Val) (h : mk_service_task c = Except.ok t) :
    pyIndex t "type" = Except.ok (Val.str "service") := by
  cases c with
  | none => simp [mk_service_task, pyGet] at h
  | str s => simp [mk_service_task, pyGet] at h
  | list xs => simp [mk_service_task, pyGet] at h
  | dict ckvs =>
      rw [← Except.ok.inj h]
      rfl

lemma create_service_tasks_type (es ts : List Val)
    (h : create_service_tasks es = Except.ok ts) :
    ∀ t ∈ ts, pyIndex t "type" = Except.ok (Val.str "service") := by
  induction es generalizing ts with
  | nil =>
      simp [create_service_tasks] at h
      subst h
      exact fun t ht => absurd ht (List.not_mem_nil t)
  | cons c cs ih =>
      simp only [create_service_tasks] at h
      cases hmk : mk_service_task c with
      | error e => simp only [hmk] at h; exact Except.noConfusion h
      | ok t =>
          simp only [hmk] at h
          cases hrest : create_service_tasks cs with
          | error e => simp only [hrest] at h; exact Except.noConfusion h
          | ok ts2 =>
              simp only [hrest, Except.ok.injEq] at h
              subst h
              intro t2 ht2
              rcases List.mem_cons.mp ht2 with rfl | ht2
              · exact mk_service_task_type c t2 hmk
              · exact ih ts2 hrest t2 ht2

lemma create_component_tasks_mem (cs ts : List Val)
    (h : create_component_tasks cs = Except.ok ts) :
    ∀ c ∈ cs, ∃ t, mk_component_task c = Except.ok t := by
  induction cs generalizing ts with
  | nil =>
      intro c hc
      cases hc
  | cons c0 cs ih =>
      simp only [create_component_tasks] at h
      cases hmk : mk_component_task c0 with
      | error e => simp only [hmk] at h; exact Except.noConfusion h
      | ok t =>
          simp only [hmk] at h
          cases hrest : create_component_tasks cs with
          | error e => simp only [hrest] at h; exact Except.noConfusion h
          | ok ts2 =>
              intro c hc
              rcases List.mem_cons.mp hc with rfl | hc
              · exact ⟨t, hmk⟩
              · exact ih ts2 hrest c hc

lemma extract_frontend_inv (kvs : List (String × Val)) (comps tasks : List Val)
    (hui : lookupKey kvs "ui_components" = Option.some (Val.list comps))
    (hext : extract_frontend_tasks (Val.dict kvs) = Except.ok tasks) :
    ∃ cts sts, create_component_tasks comps = Except.ok cts ∧
      tasks = cts ++ sts ∧
      ∀ t ∈ sts, pyIndex t "type" = Except.ok (Val.str "service") := by
  unfold extract_frontend_tasks at hext
  cases h1 : opt_tasks_part (Val.dict kvs) "ui_components" create_component_tasks with
  | error e => simp only [h1] at hext; exact Except.noConfusion hext
  | ok t1 =>
      simp only [h1] at hext
      cases h2 : opt_tasks_part (Val.dict kvs) "api_endpoints" create_service_tasks with
      | error e => simp only [h2] at hext; exact Except.noConfusion hext
      | ok t2 =>
          simp only [h2, Except.ok.injEq] at hext
          have hb1 : create_component_tasks comps = Except.ok t1 := by
            rcases opt_part_inv kvs "ui_components" create_component_tasks t1 h1 with
              ⟨hn, _⟩ | ⟨v, xs, hk, hi, hb⟩
            · rw [hui] at hn; exact Option.noConfusion hn
            · rw [hui] at hk
              cases Option.some.inj hk
              cases Except.ok.inj hi
              exact hb
          have hb2 : ∀ t ∈ t2, pyIndex t "type" = Except.ok (Val.str "service") := by
            rcases opt_part_inv kvs "api_endpoints" create_service_tasks t2 h2 with
              ⟨_, hn⟩ | ⟨v, xs, hk, hi, hb⟩
            · subst hn; exact fun t ht => absurd ht (List.not_mem_nil t)
            · exact create_service_tasks_type xs t2 hb
          exact ⟨t1, t2, hb1, hext.symm, hb2⟩

lemma arun_frontend_inv (kvs : List (String × Val)) (out : Val)
    (hrun : arun (Val.dict [("design", Val.dict kvs)]) = Except.ok out) :
    ∃ tasks, extract_frontend_tasks (Val.dict kvs) = Except.ok tasks ∧
      out = Val.dict [("frontend_tasks", Val.list tasks),
        ("tech_stack", Val.str "Angular"),
        ("dependencies", (lookupKey kvs "frontend_dependencies").getD (Val.list []))] := by
  unfold arun at hrun
  have hd : pyGet (Val.dict [("design", Val.dict kvs)]) "design" (Val.dict []) =
      Except.ok (Val.dict kvs) := rfl
  simp only [hd] at hrun
  cases hext : extract_frontend_tasks (Val.dict kvs) with
  | error e => simp only [hext] at hrun; exact Except.noConfusion hrun
  | ok tasks =>
      simp only [hext] at hrun
      have hdeps : pyGet (Val.dict kvs) "frontend_dependencies" (Val.list []) =
          Except.ok ((lookupKey kvs "frontend_dependencies").getD (Val.list [])) := rfl
      simp only [hdeps, Except.ok.injEq] at hrun
      exact ⟨tasks, rfl, hrun.symm⟩

end DesignToFrontend

namespace DesignToBackend

lemma mk_api_task_type (c t : Val) (h : mk_api_task c = Except.ok t) :
    pyIndex t "type" = Except.ok (Val.str "controller") := by
  cases c with
  | none => simp [mk_api_task, pyGet] at h
  | str s => simp [mk_api_task, pyGet] at h
  | list xs => simp [mk_api_task, pyGet] at h
  | dict ckvs =>
      rw [← Except.ok.inj h]
      rfl

lemma create_api_tasks_type (es ts : List Val)
    (h : create_api_tasks es = Except.ok ts) :
    ∀ t ∈ ts, pyIndex t "type" = Except.ok (Val.str "controller") := by
  induction es generalizing ts with
  | nil =>
      simp [create_api_tasks] at h
      subst h
      exact fun t ht => absurd ht (List.not_mem_nil t)
  | cons c cs ih =>
      simp only [create_api_tasks] at h
      cases hmk : mk_api_task c with
      | error e => simp only [hmk] at h; exact Except.noConfusion h
      | ok t =>
          simp only [hmk] at h
          cases hrest : create_api_tasks cs with
          | error e => simp only [hrest] at h; exact Except.noConfusion h
          | ok ts2 =>
              simp only [hrest, Except.ok.injEq] at h
              subst h
              intro t2 ht2
              rcases List.mem_cons.mp ht2 with rfl | ht2
              · exact mk_api_task_type c t2 hmk
              · exact ih ts2 hrest t2 ht2

lemma mk_model_task_ok (c t : Val) (h : mk_model_task c = Except.ok t) :
    ∃ ckvs, c = Val.dict ckvs ∧
      t = Val.dict [("type", Val.str "model"),
        ("name", (lookupKey ckvs "name").getD Val.none),
        ("properties", (lookupKey ckvs "properties").getD (Val.list [])),
        ("validations", (lookupKey ckvs "validations").getD (Val.list [])),
        ("relationships", (lookupKey ckvs "relationships").getD (Val.list []))] := by
  cases c with
  | none => simp [mk_model_task, pyGet] at h
  | str s => simp [mk_model_task, pyGet] at h
  | list xs => simp [mk_model_task, pyGet] at h
  | dict ckvs => exact ⟨ckvs, rfl, (Except.ok.inj h).symm⟩

lemma create_model_tasks_ok (cs ts : List Val)
    (h : create_model_tasks cs = Except.ok ts) :
    ts.length = cs.length ∧
    (∀ i (hi : i < cs.length) (hi2 : i < ts.length),
      mk_model_task (cs.get ⟨i, hi⟩) = Except.ok (ts.get ⟨i, hi2⟩)) ∧
    (∀ t ∈ ts, pyIndex t "type" = Except.ok (Val.str "model")) := by
  induction cs generalizing ts with
  | nil =>
      simp [create_model_tasks] at h
      subst h
      exact ⟨rfl, fun i hi hi2 => absurd hi (Nat.not_lt_zero i),
        fun t ht => absurd ht (List.not_mem_nil t)⟩
  | cons c cs ih =>
      simp only [create_model_tasks] at h
      cases hmk : mk_model_task c with
      | error e => simp only [hmk] at h; exact Except.noConfusion h
      | ok t =>
          simp only [hmk] at h
          cases hrest : create_model_tasks cs with
          | error e => simp only [hrest] at h; exact Except.noConfusion h
          | ok ts2 =>
              simp only [hrest, Except.ok.injEq] at h
              subst h
              obtain ⟨hlen, hpt, hty⟩ := ih ts2 hrest
              refine ⟨by simp [hlen], ?_, ?_⟩
              · intro i hi hi2
                cases i with
                | zero => exact hmk
                | succ j =>
                    exact hpt j (Nat.lt_of_succ_lt_succ hi) (Nat.lt_of_succ_lt_succ hi2)
              · intro t2 ht2
                rcases List.mem_cons.mp ht2 with rfl | ht2
                · obtain ⟨ckvs, hc, ht⟩ := mk_model_task_ok c t2 hmk
                  rw [ht]
                  rfl
                · exact hty t2 ht2

lemma mk_backend_service_task_type (c t : Val)
    (h : mk_backend_service_task c = Except.ok t) :
    pyIndex t "type" = Except.ok (Val.str "service") := by
  cases c with
  | none => simp [mk_backend_service_task, pyGet] at h
  | str s => simp [mk_backend_service_task, pyGet] at h
  | list xs => simp [mk_backend_service_task, pyGet] at h
  | dict ckvs =>
      rw [← Except.ok.inj h]
      rfl

lemma create_backend_service_tasks_type (es ts : List Val)
    (h : create_backend_service_tasks es = Except.ok ts) :
    ∀ t ∈ ts, pyIndex t "type" = Except.ok (Val.str "service") := by
  induction es generalizing ts with
  | nil =>
      simp [create_backend_service_tasks] at h
      subst h
      exact fun t ht => absurd ht (List.not_mem_nil t)
  | cons c cs ih =>
      simp only [create_backend_service_tasks] at h
      cases hmk : mk_backend_service_task c with
      | error e => simp only [hmk] at h; exact Except.noConfusion h
      | ok t =>
          simp only [hmk] at h
          cases hrest : create_backend_service_tasks cs with
          | error e => simp only [hrest] at h; exact Except.noConfusion h
          | ok ts2 =>
              simp only [hrest, Except.ok.injEq] at h
              subst h
              intro t2 ht2
              rcases List.mem_cons.mp ht2 with rfl | ht2
              · exact mk_backend_service_task_type c t2 hmk
              · exact ih ts2 hrest t2 ht2

lemma create_model_tasks_mem (cs ts : List Val)
    (h : create_model_tasks cs = Except.ok ts) :
    ∀ c ∈ cs, ∃ t, mk_model_task c = Except.ok t := by
  induction cs generalizing ts with
  | nil =>
      intro c hc
      cases hc
  | cons c0 cs ih =>
      simp only [create_model_tasks] at h
      cases hmk : mk_model_task c0 with
      | error e => simp only [hmk] at h; exact Except.noConfusion h
      | ok t =>
          simp only [hmk] at h
          cases hrest : create_model_tasks cs with
          | error e => simp only [hrest] at h; exact Except.noConfusion h
          | ok ts2 =>
              intro c hc
              rcases List.mem_cons.mp hc with rfl | hc
              · exact ⟨t, hmk⟩
              · exact ih ts2 hrest c hc

lemma extract_backend_inv (kvs : List (String × Val)) (models tasks : List Val)
    (hdm : lookupKey kvs "data_models" = Option.some (Val.list models))
    (hext : extract_backend_tasks (Val.dict kvs) = Except.ok tasks) :
    ∃ t1 cts t3, create_model_tasks models = Except.ok cts ∧
      tasks = t1 ++ cts ++ t3 ∧
      (∀ t ∈ t1, pyIndex t "type" = Except.ok (Val.str "controller")) ∧
      (∀ t ∈ t3, pyIndex t "type" = Except.ok (Val.str "service")) := by
  unfold extract_backend_tasks at hext
  cases h1 : opt_tasks_part (Val.dict kvs) "api_endpoints" create_api_tasks with
  | error e => simp only [h1] at hext; exact Except.noConfusion hext
  | ok t1 =>
      simp only [h1] at hext
      cases h2 : opt_tasks_part (Val.dict kvs) "data_models" create_model_tasks with
      | error e => simp only [h2] at hext; exact Except.noConfusion hext
      | ok t2 =>
          simp only [h2] at hext
          cases h3 : opt_tasks_part (Val.dict kvs) "services" create_backend_service_tasks with
          | error e => simp only [h3] at hext; exact Except.noConfusion hext
          | ok t3 =>
              simp only [h3, Except.ok.injEq] at hext
              have hb2 : create_model_tasks models = Except.ok t2 := by
                rcases opt_part_inv kvs "data_models" create_model_tasks t2 h2 with
                  ⟨hn, _⟩ | ⟨v, xs, hk, hi, hb⟩
                · rw [hdm] at hn; exact Option.noConfusion hn
                · rw [hdm] at hk
                  cases Option.some.inj hk
                  cases Except.ok.inj hi
                  exact hb
              have hb1 : ∀ t ∈ t1, pyIndex t "type" = Except.ok (Val.str "controller") := by
                rcases opt_part_inv kvs "api_endpoints" create_api_tasks t1 h1 with
                  ⟨_, hn⟩ | ⟨v, xs, hk, hi, hb⟩
                · subst hn; exact fun t ht => absurd ht (List.not_mem_nil t)
                · exact create_api_tasks_type xs t1 hb
              have hb3 : ∀ t ∈ t3, pyIndex t "type" = Except.ok (Val.str "service") := by
                rcases opt_part_inv kvs "services" create_backend_service_tasks t3 h3 with
                  ⟨_, hn⟩ | ⟨v, xs, hk, hi, hb⟩
                · subst hn; exact fun t ht => absurd ht (List.not_mem_nil t)
                · exact create_backend_service_tasks_type xs t3 hb
              exact ⟨t1, t2, t3, hb2, hext.symm, hb1, hb3⟩

lemma arun_backend_inv (kvs : List (String × Val)) (out : Val)
    (hrun : arun (Val.dict [("design", Val.dict kvs)]) = Except.ok out) :
    ∃ tasks, extract_backend_tasks (Val.dict kvs) = Except.ok tasks ∧
      out = Val.dict [("backend_tasks", Val.list tasks),
        ("tech_stack", Val.str ".NET Core"),
        ("dependencies", (lookupKey kvs "backend_dependencies").getD (Val.list []))] := by
  unfold arun at hrun
  have hd : pyGet (Val.dict [("design", Val.dict kvs)]) "design" (Val.dict []) =
      Except.ok (Val.dict kvs) := rfl
  simp only [hd] at hrun
  cases hext : extract_backend_tasks (Val.dict kvs) with
  | error e => simp only [hext] at hrun; exact Except.noConfusion hrun
  | ok tasks =>
      simp only [hext] at hrun
      have hdeps : pyGet (Val.dict kvs) "backend_dependencies" (Val.list []) =
          Except.ok ((lookupKey kvs "backend_dependencies").getD (Val.list [])) := rfl
      simp only [hdeps, Except.ok.injEq] at hrun
      exact ⟨tasks, rfl, hrun.symm⟩

end DesignToBackend

namespace FrontendBackendSync

lemma typeIs_of_eq (f : Val) (s t : String)
    (h : pyIndex f "type" = Except.ok (Val.str s)) :
    typeIs f t = (s == t) := by
  unfold typeIs
  rw [h]
  rfl

lemma beq_str_true (v : Val) (s : String) (h : Val.beq v (Val.str s) = true) :
    v = Val.str s := by
  cases v with
  | none => simp [Val.beq] at h
  | str a =>
      simp only [Val.beq, beq_iff_eq] at h
      rw [h]
  | list xs => simp [Val.beq] at h
  | dict kvs => simp [Val.beq] at h

lemma statusIs_unique (g : Val) (s t : String) (hst : statusIs g s = true)
    (hne : (s == t) = false) : statusIs g t = false := by
  unfold statusIs at hst ⊢
  cases hx : pyIndex g "status" with
  | error e => rfl
  | ok v =>
      rw [hx] at hst
      have hv := beq_str_true v s hst
      subst hv
      exact hne

lemma validate_api_single (s bes n : Val)
    (hname : pyGet s "name" Val.none = Except.ok n)
    (hmatch : find_matching_endpoint s bes = Except.ok Option.none) :
    validate_api_contracts (Val.list [s]) bes =
      Except.ok [missing_endpoint_finding n] := by
  simp only [validate_api_contracts, pyIter, validate_api_list, hmatch,
    mk_api_finding, hname, missing_endpoint_finding]

end FrontendBackendSync

section ClaimTheorems

open FrontendBackendSync

/-- Claim C1 (code bug): the claim states that `FrontendBackendSync.arun`
completes without raising for every pair of input mappings.  The code
violates this: when the two sides' auth mechanisms agree but their role
lists differ, the auth axis emits a `role_mismatch` finding carrying only
`type`, `status` and `differences`, and `_handle_auth_mismatch` then reads
the absent `frontend` key, raising KeyError.  This theorem evaluates the
code at such a failing input. -/
theorem C1_arun_raises_keyerror_on_role_mismatch :
    FrontendBackendSync.arun (Val.dict
      [("frontend_implementation", Val.dict
          [("auth_config", Val.dict [("roles", Val.list [Val.str "admin"])])]),
       ("backend_implementation", Val.dict [])]) =
      Except.error "KeyError: frontend" := rfl

/-- Claim C2 (amended): every auth finding with status `mismatch` (the
mechanism-mismatch case, which carries `frontend` and `backend` values)
yields an `auth_mechanism_mismatch` adjustment in the `critical` bucket
carrying both sides' values, whenever adjustment generation completes.
(The original claim said this for every non-matched auth finding; it fails
for `role_mismatch` findings, which abort generation with a KeyError — see
the counterexample.) -/
theorem C2_auth_mismatch_appends_critical (fs : List Val) (res : Adjustments)
    (f b : Val)
    (hmem : auth_mismatch_finding f b ∈ fs)
    (hok : generate_adjustments fs = Except.ok res) :
    auth_mechanism_adj f b ∈ res.critical :=
  core_auth_member fs ⟨[], [], []⟩ res f b hmem hok

/-- Witness for claim C2's amended theorem at a concrete finding list. -/
theorem C2_auth_mismatch_appends_critical_witness :
    auth_mechanism_adj (Val.str "JWT") (Val.str "OAuth2") ∈
      (Adjustments.mk [] []
        [auth_mechanism_adj (Val.str "JWT") (Val.str "OAuth2")]).critical :=
  C2_auth_mismatch_appends_critical
    [auth_mismatch_finding (Val.str "JWT") (Val.str "OAuth2")]
    (Adjustments.mk [] [] [auth_mechanism_adj (Val.str "JWT") (Val.str "OAuth2")])
    (Val.str "JWT") (Val.str "OAuth2") (List.mem_singleton.mpr rfl) rfl

/-- Counterexample to claim C2 as stated: the reconciler produces the
finding list `[role_mismatch_finding [admin]]` (an auth-typed, non-matched
finding), yet adjustment generation on that list raises KeyError instead of
appending an `auth_mechanism_mismatch` adjustment to the critical bucket. -/
theorem C2_role_mismatch_counterexample :
    analyze_sync_points
        (Val.dict [("auth_config", Val.dict [("roles", Val.list [Val.str "admin"])])])
        (Val.dict []) =
      Except.ok [role_mismatch_finding [Val.str "admin"]] ∧
    generate_adjustments [role_mismatch_finding [Val.str "admin"]] =
      Except.error "KeyError: frontend" :=
  ⟨rfl, rfl⟩

/-- Claim C5: the adjustment buckets contain no entry derived from a
finding whose status is `matched`: generation is unchanged if all matched
findings are removed from the list first. -/
theorem C5_matched_findings_generate_nothing (fs : List Val) :
    generate_adjustments fs =
      generate_adjustments (fs.filter (fun g => !(isMatched g))) :=
  core_filter_matched fs ⟨[], [], []⟩

/-- Claim C9: on every finding list actually producible by
`_analyze_sync_points`, no finding carries status `method_mismatch` or
`property_mismatch` (the axes only emit `matched`, `missing_endpoint`,
`missing_model`, `mismatch`, `role_mismatch`), so when adjustment
generation completes no adjustment of type `api_method_mismatch` or
`model_property_mismatch` appears in the critical bucket. -/
theorem C9_no_method_or_property_mismatch_adjustments (fe be : Val)
    (sync : List Val) (adjs : Adjustments)
    (h1 : analyze_sync_points fe be = Except.ok sync)
    (h2 : generate_adjustments sync = Except.ok adjs) :
    (∀ f ∈ sync, statusIs f "method_mismatch" = false ∧
      statusIs f "property_mismatch" = false) ∧
    (∀ a ∈ adjs.critical, typeIs a "api_method_mismatch" = false ∧
      typeIs a "model_property_mismatch" = false) := by
  have hstat := analyze_statuses fe be sync h1
  have hpart : ∀ f ∈ sync, statusIs f "method_mismatch" = false ∧
      statusIs f "property_mismatch" = false :=
    fun f hf => status_not_bad f (hstat f hf)
  refine ⟨hpart, ?_⟩
  intro a ha
  rcases core_crit_auth_only sync ⟨[], [], []⟩ adjs h2 hpart a ha with hx | ⟨x, y, rfl⟩
  · cases hx
  · exact ⟨rfl, rfl⟩

/-- Witness for claim C9 at a concrete reconciliation run. -/
theorem C9_no_method_or_property_mismatch_adjustments_witness :
    (∀ f ∈ [auth_mismatch_finding (Val.str "JWT") (Val.str "OAuth2")],
      statusIs f "method_mismatch" = false ∧
      statusIs f "property_mismatch" = false) ∧
    (∀ a ∈ (Adjustments.mk [] []
        [auth_mechanism_adj (Val.str "JWT") (Val.str "OAuth2")]).critical,
      typeIs a "api_method_mismatch" = false ∧
      typeIs a "model_property_mismatch" = false) :=
  C9_no_method_or_property_mismatch_adjustments
    (Val.dict [("auth_config", Val.dict [("mechanism", Val.str "JWT")])])
    (Val.dict [("security_config", Val.dict [("mechanism", Val.str "OAuth2")])])
    [auth_mismatch_finding (Val.str "JWT") (Val.str "OAuth2")]
    (Adjustments.mk [] [] [auth_mechanism_adj (Val.str "JWT") (Val.str "OAuth2")])
    rfl rfl

/-- Claim C10: whenever the two implementation summaries declare equal auth
mechanism strings but their role lists differ (the role diff is non-empty),
reconciliation does not complete normally: `arun` returns an error.  The
`role_mismatch` finding lacks the `frontend`/`backend` keys that
`_handle_auth_mismatch` reads. -/
theorem C10_role_diff_aborts_reconciliation (fe be fa ba fr br : Val)
    (m : String) (ds : List Val)
    (h7 : pyGet fe "auth_config" (Val.dict []) = Except.ok fa)
    (h8 : pyGet be "security_config" (Val.dict []) = Except.ok ba)
    (hfm : pyGet fa "mechanism" Val.none = Except.ok (Val.str m))
    (hbm : pyGet ba "mechanism" Val.none = Except.ok (Val.str m))
    (hfr : pyGet fa "roles" (Val.list []) = Except.ok fr)
    (hbr : pyGet ba "roles" (Val.list []) = Except.ok br)
    (hds : compare_roles fr br = Except.ok ds)
    (hne : ds ≠ []) :
    ∃ e, FrontendBackendSync.arun (Val.dict
      [("frontend_implementation", fe), ("backend_implementation", be)]) =
      Except.error e := by
  have hauth := validate_auth_role_only fa ba m fr br ds hfm hbm hfr hbr hds hne
  rcases analyze_cases fe be fa ba [role_mismatch_finding ds] h7 h8 hauth with
    ⟨e, he⟩ | ⟨api, ms, hok⟩
  · exact ⟨e, arun_err_analyze fe be e he⟩
  · rcases core_error_of_role_mismatch (api ++ ms) [] ds ⟨[], [], []⟩ with ⟨e, hg⟩
    exact ⟨e, arun_err_generate fe be _ e hok hg⟩

/-- Witness for claim C10 at a concrete input: both sides use JWT but the
frontend declares an extra admin role. -/
theorem C10_role_diff_aborts_reconciliation_witness :
    ∃ e, FrontendBackendSync.arun (Val.dict
      [("frontend_implementation", Val.dict
          [("auth_config", Val.dict [("mechanism", Val.str "JWT"),
            ("roles", Val.list [Val.str "admin"])])]),
       ("backend_implementation", Val.dict
          [("security_config", Val.dict [("mechanism", Val.str "JWT")])])]) =
      Except.error e :=
  C10_role_diff_aborts_reconciliation
    (Val.dict [("auth_config", Val.dict [("mechanism", Val.str "JWT"),
      ("roles", Val.list [Val.str "admin"])])])
    (Val.dict [("security_config", Val.dict [("mechanism", Val.str "JWT")])])
    (Val.dict [("mechanism", Val.str "JWT"), ("roles", Val.list [Val.str "admin"])])
    (Val.dict [("mechanism", Val.str "JWT")])
    (Val.list [Val.str "admin"]) (Val.list []) "JWT" [Val.str "admin"]
    rfl rfl rfl rfl rfl rfl rfl (List.cons_ne_nil _ _)

/-- Claim C3: when the frontend declares exactly one API service with no
matching backend endpoint and there is no other divergence (all model
findings matched, no auth findings), reconciliation returns exactly one
`api_contract`/`missing_endpoint` finding naming the service and exactly
one `create_endpoint` adjustment in the backend bucket, with the frontend
and critical buckets empty. -/
theorem C3_missing_endpoint_reconciliation (fe be s n bes fmv bmv fa ba : Val)
    (ms : List Val)
    (hsv : pyGet fe "api_services" (Val.list []) = Except.ok (Val.list [s]))
    (hbe : pyGet be "api_endpoints" (Val.list []) = Except.ok bes)
    (hname : pyGet s "name" Val.none = Except.ok n)
    (hmatch : find_matching_endpoint s bes = Except.ok Option.none)
    (hfm : pyGet fe "models" (Val.list []) = Except.ok fmv)
    (hbm : pyGet be "data_models" (Val.list []) = Except.ok bmv)
    (hms : validate_data_models fmv bmv = Except.ok ms)
    (hmsM : ∀ f ∈ ms, isMatched f = true)
    (hfa : pyGet fe "auth_config" (Val.dict []) = Except.ok fa)
    (hba : pyGet be "security_config" (Val.dict []) = Except.ok ba)
    (hauth : validate_auth_implementation fa ba = Except.ok []) :
    FrontendBackendSync.arun (Val.dict
      [("frontend_implementation", fe), ("backend_implementation", be)]) =
      Except.ok (Val.dict
        [("sync_results", Val.list (missing_endpoint_finding n :: ms)),
         ("adjustments_needed", Val.dict [("frontend", Val.list []),
           ("backend", Val.list [create_endpoint_adj n]),
           ("critical", Val.list [])])]) ∧
    ((missing_endpoint_finding n :: ms).filter
      (fun g => typeIs g "api_contract" && statusIs g "missing_endpoint")).length = 1 := by
  have hapi := validate_api_single s bes n hname hmatch
  have hana := analyze_eq fe be (Val.list [s]) bes fmv bmv fa ba
    [missing_endpoint_finding n] ms [] hsv hbe hapi hfm hbm hms hfa hba hauth
  have hana2 : analyze_sync_points fe be =
      Except.ok (missing_endpoint_finding n :: ms) := by
    simpa using hana
  have hgen : generate_adjustments (missing_endpoint_finding n :: ms) =
      Except.ok ⟨[], [create_endpoint_adj n], []⟩ := by
    unfold generate_adjustments
    simp only [generate_adjustments_core]
    rw [process_missing_endpoint]
    exact core_all_matched ms ⟨[], [] ++ [create_endpoint_adj n], []⟩ hmsM
  constructor
  · exact arun_eq fe be _ _ hana2 hgen
  · have hfilter : ms.filter
        (fun g => typeIs g "api_contract" && statusIs g "missing_endpoint") = [] := by
      rw [List.filter_eq_nil_iff]
      intro g hg
      rw [statusIs_unique g "matched" "missing_endpoint" (hmsM g hg) rfl]
      simp
    have hpos : (typeIs (missing_endpoint_finding n) "api_contract" &&
        statusIs (missing_endpoint_finding n) "missing_endpoint") = true := rfl
    simp [List.filter_cons, hfilter, hpos]

/-- Witness for claim C3 at a concrete input: one frontend service named
UserService and an empty backend. -/
theorem C3_missing_endpoint_reconciliation_witness :
    FrontendBackendSync.arun (Val.dict
      [("frontend_implementation", Val.dict [("api_services",
          Val.list [Val.dict [("name", Val.str "UserService")]])]),
       ("backend_implementation", Val.dict [])]) =
      Except.ok (Val.dict
        [("sync_results", Val.list
            (missing_endpoint_finding (Val.str "UserService") :: [])),
         ("adjustments_needed", Val.dict [("frontend", Val.list []),
           ("backend", Val.list [create_endpoint_adj (Val.str "UserService")]),
           ("critical", Val.list [])])]) ∧
    ((missing_endpoint_finding (Val.str "UserService") :: []).filter
      (fun g => typeIs g "api_contract" && statusIs g "missing_endpoint")).length = 1 :=
  C3_missing_endpoint_reconciliation
    (Val.dict [("api_services", Val.list [Val.dict [("name", Val.str "UserService")]])])
    (Val.dict []) (Val.dict [("name", Val.str "UserService")])
    (Val.str "UserService") (Val.list []) (Val.list []) (Val.list [])
    (Val.dict []) (Val.dict []) []
    rfl rfl rfl rfl rfl rfl rfl (fun f hf => absurd hf (List.not_mem_nil f))
    rfl rfl rfl

/-- Claim C4: with frontend auth mechanism "JWT" and backend mechanism
"OAuth2", equal roles and no other divergences (all api and model findings
matched), reconciliation emits the auth mismatch finding and exactly one
critical adjustment of type `auth_mechanism_mismatch` carrying both strings
verbatim, the other buckets being empty. -/
theorem C4_jwt_oauth2_mismatch (fe be fsv bsv fmv bmv fa ba fr br : Val)
    (as ms : List Val)
    (hsv : pyGet fe "api_services" (Val.list []) = Except.ok fsv)
    (hbe : pyGet be "api_endpoints" (Val.list []) = Except.ok bsv)
    (hapi : validate_api_contracts fsv bsv = Except.ok as)
    (hasM : ∀ f ∈ as, isMatched f = true)
    (hfm : pyGet fe "models" (Val.list []) = Except.ok fmv)
    (hbm : pyGet be "data_models" (Val.list []) = Except.ok bmv)
    (hms : validate_data_models fmv bmv = Except.ok ms)
    (hmsM : ∀ f ∈ ms, isMatched f = true)
    (hfa : pyGet fe "auth_config" (Val.dict []) = Except.ok fa)
    (hba : pyGet be "security_config" (Val.dict []) = Except.ok ba)
    (hjwt : pyGet fa "mechanism" Val.none = Except.ok (Val.str "JWT"))
    (hoauth : pyGet ba "mechanism" Val.none = Except.ok (Val.str "OAuth2"))
    (hfr : pyGet fa "roles" (Val.list []) = Except.ok fr)
    (hbr : pyGet ba "roles" (Val.list []) = Except.ok br)
    (hds : compare_roles fr br = Except.ok []) :
    FrontendBackendSync.arun (Val.dict
      [("frontend_implementation", fe), ("backend_implementation", be)]) =
      Except.ok (Val.dict
        [("sync_results", Val.list (as ++ ms ++
            [auth_mismatch_finding (Val.str "JWT") (Val.str "OAuth2")])),
         ("adjustments_needed", Val.dict [("frontend", Val.list []),
           ("backend", Val.list []),
           ("critical", Val.list
             [auth_mechanism_adj (Val.str "JWT") (Val.str "OAuth2")])])]) := by
  have hauth := validate_auth_mech_only fa ba (Val.str "JWT") (Val.str "OAuth2")
    fr br hjwt hoauth rfl hfr hbr hds
  have hana := analyze_eq fe be fsv bsv fmv bmv fa ba as ms
    [auth_mismatch_finding (Val.str "JWT") (Val.str "OAuth2")]
    hsv hbe hapi hfm hbm hms hfa hba hauth
  have hgen : generate_adjustments (as ++ ms ++
      [auth_mismatch_finding (Val.str "JWT") (Val.str "OAuth2")]) =
      Except.ok ⟨[], [], [auth_mechanism_adj (Val.str "JWT") (Val.str "OAuth2")]⟩ := by
    unfold generate_adjustments
    rw [List.append_assoc]
    rw [core_append_ok as _ _ _ (core_all_matched as ⟨[], [], []⟩ hasM)]
    rw [core_append_ok ms _ _ _ (core_all_matched ms ⟨[], [], []⟩ hmsM)]
    simp only [generate_adjustments_core]
    rw [process_auth_mismatch]
    rfl
  exact arun_eq fe be _ _ hana hgen

/-- Witness for claim C4 at a concrete input: JWT frontend against OAuth2
backend, nothing else declared. -/
theorem C4_jwt_oauth2_mismatch_witness :
    FrontendBackendSync.arun (Val.dict
      [("frontend_implementation", Val.dict
          [("auth_config", Val.dict [("mechanism", Val.str "JWT")])]),
       ("backend_implementation", Val.dict
          [("security_config", Val.dict [("mechanism", Val.str "OAuth2")])])]) =
      Except.ok (Val.dict
        [("sync_results", Val.list (([] : List Val) ++ ([] : List Val) ++
            [auth_mismatch_finding (Val.str "JWT") (Val.str "OAuth2")])),
         ("adjustments_needed", Val.dict [("frontend", Val.list []),
           ("backend", Val.list []),
           ("critical", Val.list
             [auth_mechanism_adj (Val.str "JWT") (Val.str "OAuth2")])])]) :=
  C4_jwt_oauth2_mismatch
    (Val.dict [("auth_config", Val.dict [("mechanism", Val.str "JWT")])])
    (Val.dict [("security_config", Val.dict [("mechanism", Val.str "OAuth2")])])
    (Val.list []) (Val.list []) (Val.list []) (Val.list [])
    (Val.dict [("mechanism", Val.str "JWT")])
    (Val.dict [("mechanism", Val.str "OAuth2")])
    (Val.list []) (Val.list []) [] []
    rfl rfl rfl (fun f hf => absurd hf (List.not_mem_nil f))
    rfl rfl rfl (fun f hf => absurd hf (List.not_mem_nil f))
    rfl rfl rfl rfl rfl rfl rfl

/-- Claim C6: a design carrying none of the six optional keys yields empty
task lists from both extractors, with the fixed tech-stack strings and
empty dependencies, and neither extractor fails. -/
theorem C6_empty_design_empty_tasks (kvs : List (String × Val))
    (h1 : lookupKey kvs "ui_components" = Option.none)
    (h2 : lookupKey kvs "api_endpoints" = Option.none)
    (h3 : lookupKey kvs "data_models" = Option.none)
    (h4 : lookupKey kvs "services" = Option.none)
    (h5 : lookupKey kvs "frontend_dependencies" = Option.none)
    (h6 : lookupKey kvs "backend_dependencies" = Option.none) :
    DesignToFrontend.arun (Val.dict [("design", Val.dict kvs)]) =
      Except.ok (Val.dict [("frontend_tasks", Val.list []),
        ("tech_stack", Val.str "Angular"), ("dependencies", Val.list [])]) ∧
    DesignToBackend.arun (Val.dict [("design", Val.dict kvs)]) =
      Except.ok (Val.dict [("backend_tasks", Val.list []),
        ("tech_stack", Val.str ".NET Core"), ("dependencies", Val.list [])]) := by
  have hpart : ∀ (key : String) (build : List Val → Except String (List Val)),
      lookupKey kvs key = Option.none →
      opt_tasks_part (Val.dict kvs) key build = Except.ok [] := by
    intro key build hk
    unfold opt_tasks_part
    have hc : pyContains (Val.dict kvs) key =
        Except.ok ((lookupKey kvs key).isSome) := rfl
    simp only [hc, hk, Option.isSome_none, Bool.false_eq_true, if_false]
  have hd : pyGet (Val.dict [("design", Val.dict kvs)]) "design" (Val.dict []) =
      Except.ok (Val.dict kvs) := rfl
  constructor
  · have hext : DesignToFrontend.extract_frontend_tasks (Val.dict kvs) =
        Except.ok [] := by
      unfold DesignToFrontend.extract_frontend_tasks
      simp only [hpart "ui_components" DesignToFrontend.create_component_tasks h1,
        hpart "api_endpoints" DesignToFrontend.create_service_tasks h2,
        List.append_nil]
    have hdeps : pyGet (Val.dict kvs) "frontend_dependencies" (Val.list []) =
        Except.ok (Val.list []) := by
      simp [pyGet, h5]
    simp only [DesignToFrontend.arun, hd, hext, hdeps]
  · have hext : DesignToBackend.extract_backend_tasks (Val.dict kvs) =
        Except.ok [] := by
      unfold DesignToBackend.extract_backend_tasks
      simp only [hpart "api_endpoints" DesignToBackend.create_api_tasks h2,
        hpart "data_models" DesignToBackend.create_model_tasks h3,
        hpart "services" DesignToBackend.create_backend_service_tasks h4,
        List.append_nil]
    have hdeps : pyGet (Val.dict kvs) "backend_dependencies" (Val.list []) =
        Except.ok (Val.list []) := by
      simp [pyGet, h6]
    simp only [DesignToBackend.arun, hd, hext, hdeps]

/-- Witness for claim C6 at the empty design. -/
theorem C6_empty_design_empty_tasks_witness :
    DesignToFrontend.arun (Val.dict [("design", Val.dict [])]) =
      Except.ok (Val.dict [("frontend_tasks", Val.list []),
        ("tech_stack", Val.str "Angular"), ("dependencies", Val.list [])]) ∧
    DesignToBackend.arun (Val.dict [("design", Val.dict [])]) =
      Except.ok (Val.dict [("backend_tasks", Val.list []),
        ("tech_stack", Val.str ".NET Core"), ("dependencies", Val.list [])]) :=
  C6_empty_design_empty_tasks [] rfl rfl rfl rfl rfl rfl

/-- Claim C7: for a design whose `ui_components` key holds a non-empty
list, the component-typed tasks of `DesignToFrontend.arun` are exactly the
image of the entries under the component-task builder, in order, one per
entry, each carrying the entry's `name` and defaulting `requirements` and
`dependencies` to empty lists. -/
theorem C7_component_tasks_correspond (kvs : List (String × Val))
    (comps : List Val) (out : Val)
    (hui : lookupKey kvs "ui_components" = Option.some (Val.list comps))
    (hne : comps ≠ [])
    (hrun : DesignToFrontend.arun (Val.dict [("design", Val.dict kvs)]) =
      Except.ok out) :
    ∃ ts cts, pyIndex out "frontend_tasks" = Except.ok (Val.list ts) ∧
      DesignToFrontend.create_component_tasks comps = Except.ok cts ∧
      ts.filter (fun t => typeIs t "component") = cts ∧
      cts.length = comps.length ∧
      (∀ i (hi : i < comps.length) (hi2 : i < cts.length),
        DesignToFrontend.mk_component_task (comps.get ⟨i, hi⟩) =
          Except.ok (cts.get ⟨i, hi2⟩)) ∧
      (∀ c ∈ comps, ∃ ckvs, c = Val.dict ckvs ∧
        DesignToFrontend.mk_component_task c = Except.ok (Val.dict
          [("type", Val.str "component"),
           ("name", (lookupKey ckvs "name").getD Val.none),
           ("requirements", (lookupKey ckvs "requirements").getD (Val.list [])),
           ("dependencies", (lookupKey ckvs "dependencies").getD (Val.list []))])) := by
  obtain ⟨tasks, hext, hout⟩ := DesignToFrontend.arun_frontend_inv kvs out hrun
  obtain ⟨cts, sts, hcts, htasks, hsty⟩ :=
    DesignToFrontend.extract_frontend_inv kvs comps tasks hui hext
  obtain ⟨hlen, hpt, hcty⟩ := DesignToFrontend.create_component_tasks_ok comps cts hcts
  subst htasks
  subst hout
  refine ⟨cts ++ sts, cts, rfl, hcts, ?_, hlen, hpt, ?_⟩
  · rw [List.filter_append]
    have hl : cts.filter (fun t => typeIs t "component") = cts :=
      List.filter_eq_self.mpr (fun t ht => by
        rw [typeIs_of_eq t "component" "component" (hcty t ht)]
        rfl)
    have hr : sts.filter (fun t => typeIs t "component") = [] :=
      List.filter_eq_nil_iff.mpr (fun t ht => by
        rw [typeIs_of_eq t "service" "component" (hsty t ht)]
        simp)
    rw [hl, hr, List.append_nil]
  · intro c hc
    obtain ⟨t, hmk⟩ := DesignToFrontend.create_component_tasks_mem comps cts hcts c hc
    obtain ⟨ckvs, hc2, ht2⟩ := DesignToFrontend.mk_component_task_ok c t hmk
    refine ⟨ckvs, hc2, ?_⟩
    rw [hmk, ht2]

/-- Witness for claim C7 at a concrete design with one Nav component. -/
theorem C7_component_tasks_correspond_witness :
    ∃ ts cts,
      pyIndex (Val.dict [("frontend_tasks", Val.list
          [Val.dict [("type", Val.str "component"), ("name", Val.str "Nav"),
            ("requirements", Val.list []), ("dependencies", Val.list [])]]),
        ("tech_stack", Val.str "Angular"), ("dependencies", Val.list [])])
        "frontend_tasks" = Except.ok (Val.list ts) ∧
      DesignToFrontend.create_component_tasks
        [Val.dict [("name", Val.str "Nav")]] = Except.ok cts ∧
      ts.filter (fun t => typeIs t "component") = cts ∧
      cts.length = ([Val.dict [("name", Val.str "Nav")]] : List Val).length ∧
      (∀ i (hi : i < ([Val.dict [("name", Val.str "Nav")]] : List Val).length)
        (hi2 : i < cts.length),
        DesignToFrontend.mk_component_task
          (([Val.dict [("name", Val.str "Nav")]] : List Val).get ⟨i, hi⟩) =
          Except.ok (cts.get ⟨i, hi2⟩)) ∧
      (∀ c ∈ ([Val.dict [("name", Val.str "Nav")]] : List Val),
        ∃ ckvs, c = Val.dict ckvs ∧
        DesignToFrontend.mk_component_task c = Except.ok (Val.dict
          [("type", Val.str "component"),
           ("name", (lookupKey ckvs "name").getD Val.none),
           ("requirements", (lookupKey ckvs "requirements").getD (Val.list [])),
           ("dependencies", (lookupKey ckvs "dependencies").getD (Val.list []))])) :=
  C7_component_tasks_correspond
    [("ui_components", Val.list [Val.dict [("name", Val.str "Nav")]])]
    [Val.dict [("name", Val.str "Nav")]]
    (Val.dict [("frontend_tasks", Val.list
        [Val.dict [("type", Val.str "component"), ("name", Val.str "Nav"),
          ("requirements", Val.list []), ("dependencies", Val.list [])]]),
      ("tech_stack", Val.str "Angular"), ("dependencies", Val.list [])])
    rfl (List.cons_ne_nil _ _) rfl

/-- Claim C8: for a design whose `data_models` key holds a non-empty list,
the model-typed tasks of `DesignToBackend.arun` are exactly the image of
the entries under the model-task builder, in order, one per entry, with
`properties`, `validations` and `relationships` defaulting to empty lists
when absent. -/
theorem C8_model_tasks_correspond (kvs : List (String × Val))
    (models : List Val) (out : Val)
    (hdm : lookupKey kvs "data_models" = Option.some (Val.list models))
    (hne : models ≠ [])
    (hrun : DesignToBackend.arun (Val.dict [("design", Val.dict kvs)]) =
      Except.ok out) :
    ∃ ts cts, pyIndex out "backend_tasks" = Except.ok (Val.list ts) ∧
      DesignToBackend.create_model_tasks models = Except.ok cts ∧
      ts.filter (fun t => typeIs t "model") = cts ∧
      cts.length = models.length ∧
      (∀ i (hi : i < models.length) (hi2 : i < cts.length),
        DesignToBackend.mk_model_task (models.get ⟨i, hi⟩) =
          Except.ok (cts.get ⟨i, hi2⟩)) ∧
      (∀ c ∈ models, ∃ ckvs, c = Val.dict ckvs ∧
        DesignToBackend.mk_model_task c = Except.ok (Val.dict
          [("type", Val.str "model"),
           ("name", (lookupKey ckvs "name").getD Val.none),
           ("properties", (lookupKey ckvs "properties").getD (Val.list [])),
           ("validations", (lookupKey ckvs "validations").getD (Val.list [])),
           ("relationships", (lookupKey ckvs "relationships").getD (Val.list []))])) := by
  obtain ⟨tasks, hext, hout⟩ := DesignToBackend.arun_backend_inv kvs out hrun
  obtain ⟨t1, cts, t3, hcts, htasks, ht1ty, ht3ty⟩ :=
    DesignToBackend.extract_backend_inv kvs models tasks hdm hext
  obtain ⟨hlen, hpt, hcty⟩ := DesignToBackend.create_model_tasks_ok models cts hcts
  subst htasks
  subst hout
  refine ⟨t1 ++ cts ++ t3, cts, rfl, hcts, ?_, hlen, hpt, ?_⟩
  · rw [List.filter_append, List.filter_append]
    have h1 : t1.filter (fun t => typeIs t "model") = [] :=
      List.filter_eq_nil_iff.mpr (fun t ht => by
        rw [typeIs_of_eq t "controller" "model" (ht1ty t ht)]
        simp)
    have h2 : cts.filter (fun t => typeIs t "model") = cts :=
      List.filter_eq_self.mpr (fun t ht => by
        rw [typeIs_of_eq t "model" "model" (hcty t ht)]
        rfl)
    have h3 : t3.filter (fun t => typeIs t "model") = [] :=
      List.filter_eq_nil_iff.mpr (fun t ht => by
        rw [typeIs_of_eq t "service" "model" (ht3ty t ht)]
        simp)
    rw [h1, h2, h3, List.append_nil, List.nil_append]
  · intro c hc
    obtain ⟨t, hmk⟩ := DesignToBackend.create_model_tasks_mem models cts hcts c hc
    obtain ⟨ckvs, hc2, ht2⟩ := DesignToBackend.mk_model_task_ok c t hmk
    refine ⟨ckvs, hc2, ?_⟩
    rw [hmk, ht2]

/-- Witness for claim C8 at a concrete design with one User model. -/
theorem C8_model_tasks_correspond_witness :
    ∃ ts cts,
      pyIndex (Val.dict [("backend_tasks", Val.list
          [Val.dict [("type", Val.str "model"), ("name", Val.str "User"),
            ("properties", Val.list []), ("validations", Val.list []),
            ("relationships", Val.list [])]]),
        ("tech_stack", Val.str ".NET Core"), ("dependencies", Val.list [])])
        "backend_tasks" = Except.ok (Val.list ts) ∧
      DesignToBackend.create_model_tasks
        [Val.dict [("name", Val.str "User")]] = Except.ok cts ∧
      ts.filter (fun t => typeIs t "model") = cts ∧
      cts.length = ([Val.dict [("name", Val.str "User")]] : List Val).length ∧
      (∀ i (hi : i < ([Val.dict [("name", Val.str "User")]] : List Val).length)
        (hi2 : i < cts.length),
        DesignToBackend.mk_model_task
          (([Val.dict [("name", Val.str "User")]] : List Val).get ⟨i, hi⟩) =
          Except.ok (cts.get ⟨i, hi2⟩)) ∧
      (∀ c ∈ ([Val.dict [("name", Val.str "User")]] : List Val),
        ∃ ckvs, c = Val.dict ckvs ∧
        DesignToBackend.mk_model_task c = Except.ok (Val.dict
          [("type", Val.str "model"),
           ("name", (lookupKey ckvs "name").getD Val.none),
           ("properties", (lookupKey ckvs "properties").getD (Val.list [])),
           ("validations", (lookupKey ckvs "validations").getD (Val.list [])),
           ("relationships", (lookupKey ckvs "relationships").getD (Val.list []))])) :=
  C8_model_tasks_correspond
    [("data_models", Val.list [Val.dict [("name", Val.str "User")]])]
    [Val.dict [("name", Val.str "User")]]
    (Val.dict [("backend_tasks", Val.list
        [Val.dict [("type", Val.str "model"), ("name", Val.str "User"),
          ("properties", Val.list []), ("validations", Val.list []),
          ("relationships", Val.list [])]]),
      ("tech_stack", Val.str ".NET Core"), ("dependencies", Val.list [])])
    rfl (List.cons_ne_nil _ _) rfl

end ClaimTheorems
